import Mathlib

/-!
# jsdom `Location-impl.js`: a shallow embedding

The file embeds the two halves of `lib/jsdom/living/window/Location-impl.js`:

* `LocationImpl`, the class whose accessors read the owning document's URL
  record and whose setters and methods hand a navigation request to the
  navigation pipeline;
* `proxyHandler`, the table of traps installed by `init` around the
  location wrapper.

JavaScript state is passed explicitly.  Collaborators that live outside the
file (the `whatwg-url` library, the document helpers, the navigation
pipeline, the JavaScript object model) are either parameters (`URLLib`,
`DocumentHelpers`) or definitions whose doc comment says what they stand for.
-/

set_option autoImplicit false

namespace Location

/-! ## URL records and the owning document -/

/-- A host of a URL record as `whatwg-url` stores it: a domain string, an
IPv4 number, a list of IPv6 pieces, or a host of a non-special URL. -/
inductive Host where
  | domain (name : String)
  | ipv4 (address : Nat)
  | ipv6 (pieces : List Nat)
  | other (text : String)
  deriving DecidableEq, Repr

/-- The URL record of `whatwg-url` (the fields this file reads or copies). -/
structure URLRecord where
  scheme : String
  username : String
  password : String
  host : Option Host
  port : Option Nat
  path : List String
  query : Option String
  fragment : Option String
  cannotBeABaseURL : Bool
  deriving DecidableEq, Repr

/-- The `stateOverride` strings passed to `basicURLParse` by the setters. -/
inductive StateOverride where
  | schemeStart
  | host
  | hostname
  | port
  | pathStart
  | query
  | fragment
  deriving DecidableEq, Repr

/-- What `basicURLParse(input, { url, stateOverride, encodingOverride })`
leaves behind: the record it was given, as mutated by the state machine, and
whether the call returned `null` (the parser reported failure). -/
structure ParseOutcome where
  url : URLRecord
  failure : Bool
  deriving DecidableEq, Repr

/-- The functions of `whatwg-url` the class calls.  They are external to the
repository and are taken as parameters. -/
structure URLLib where
  /-- Models `parseURL(input, { baseURL })`; `none` is `null`. -/
  parseURL : String → URLRecord → Option URLRecord
  /-- Models `basicURLParse(input, { url, stateOverride, encodingOverride })`. -/
  basicURLParse : String → URLRecord → StateOverride → Option String → ParseOutcome
  serializeURL : URLRecord → String
  serializeURLOrigin : URLRecord → String
  serializeHost : Host → String
  serializeInteger : Nat → String

/-- The owning document, as far as the class reads it: `_URL`, `charset`
and `_defaultView` (the browsing context handed to `navigate`). -/
structure Document where
  _URL : URLRecord
  charset : String
  _defaultView : Nat
  deriving DecidableEq, Repr

/-- The helpers of `../helpers/document-base-url` that are not part of this
file are parameters: `documentBaseURL(document)`. -/
structure DocumentHelpers where
  documentBaseURL : Document → URLRecord

/-- Modelled from the spec: the `URL` attribute of the owning document, which
"exposes current AddressState"; it is the serialization of `_URL`. -/
def Document.URL (lib : URLLib) (document : Document) : String :=
  lib.serializeURL document._URL

/-- Modelled from the spec: `parseURLToResultingURLRecord(url, document)`, the
helper that will "resolve `value` against the document's base URL using full
URL parsing". -/
def parseURLToResultingURLRecord (lib : URLLib) (helpers : DocumentHelpers)
    (url : String) (document : Document) : Option URLRecord :=
  lib.parseURL url (helpers.documentBaseURL document)

/-! ## The navigation pipeline -/

/-- A flags argument is a JavaScript object literal: its keys in source order,
each with its boolean value. -/
abbrev Flags := List (String × Bool)

/-- Reading `flags.name`: `none` is `undefined` (the key is absent). -/
def Flags.read (flags : Flags) (name : String) : Option Bool :=
  (flags.find? (fun entry => entry.1 == name)).map Prod.snd

/-- One call of `navigate(window, newURL, flags)`. -/
structure NavigationRequest where
  window : Nat
  newURL : URLRecord
  flags : Flags
  deriving DecidableEq, Repr

/-- The `replacement` flag as the pipeline reads it from the flags object. -/
def NavigationRequest.replacement (request : NavigationRequest) : Option Bool :=
  request.flags.read "replacement"

/-- The `reloadTriggered` flag as the pipeline reads it. -/
def NavigationRequest.reloadTriggered (request : NavigationRequest) : Option Bool :=
  request.flags.read "reloadTriggered"

/-- The `exceptionsEnabled` flag as the pipeline reads it. -/
def NavigationRequest.exceptionsEnabled (request : NavigationRequest) : Option Bool :=
  request.flags.read "exceptionsEnabled"

/-- Errors thrown by the class, by `Reflect` on a non-object, and by the
engine when the call stack is exhausted. -/
inductive JSError where
  | typeError (message : String)
  | domException (message : String) (name : String)
  | rangeError (message : String)
  deriving DecidableEq, Repr

/-- How a call ended: it returned, or it threw. -/
inductive Completion where
  | normal
  | throw (error : JSError)
  deriving DecidableEq, Repr

/-- The state a `LocationImpl` works on: its `_relevantDocument` and the
requests handed to the navigation pipeline so far, oldest first. -/
structure LocationState where
  _relevantDocument : Document
  pipeline : List NavigationRequest
  deriving DecidableEq, Repr

/-- Modelled from the spec: `navigate(targetContext, urlRecordOrString, flags)`
of `./navigation`, a "fire-and-forget" hand-off: the request joins the
pipeline and nothing is returned to the caller. -/
def navigate (state : LocationState) (window : Nat) (newURL : URLRecord) (flags : Flags) :
    LocationState :=
  { state with pipeline := state.pipeline ++ [⟨window, newURL, flags⟩] }

namespace LocationImpl

/-- The getter `_url`. -/
def _url (state : LocationState) : URLRecord :=
  state._relevantDocument._URL

/-- The getter `get href()`. -/
def get_href (lib : URLLib) (state : LocationState) : String :=
  lib.serializeURL (_url state)

/-- The method `toString()`. -/
def toString (lib : URLLib) (state : LocationState) : String :=
  get_href lib state

/-- The getter `get origin()`. -/
def get_origin (lib : URLLib) (state : LocationState) : String :=
  lib.serializeURLOrigin (_url state)

/-- The getter `get protocol()`. -/
def get_protocol (state : LocationState) : String :=
  (_url state).scheme ++ ":"

/-- The getter `get host()`. -/
def get_host (lib : URLLib) (state : LocationState) : String :=
  let url := _url state
  match url.host with
  | none => ""
  | some host =>
    match url.port with
    | none => lib.serializeHost host
    | some port => lib.serializeHost host ++ ":" ++ lib.serializeInteger port

/-- The getter `get hostname()`. -/
def get_hostname (lib : URLLib) (state : LocationState) : String :=
  match (_url state).host with
  | none => ""
  | some host => lib.serializeHost host

/-- The getter `get port()`. -/
def get_port (lib : URLLib) (state : LocationState) : String :=
  match (_url state).port with
  | none => ""
  | some port => lib.serializeInteger port

/-- The getter `get pathname()`; `none` is `undefined`, what `url.path[0]`
is on an empty array. -/
def get_pathname (state : LocationState) : Option String :=
  let url := _url state
  if url.cannotBeABaseURL then
    url.path.head?
  else
    some ("/" ++ "/".intercalate url.path)

/-- The getter `get search()`. -/
def get_search (state : LocationState) : String :=
  match (_url state).query with
  | none => ""
  | some query => if query = "" then "" else "?" ++ query

/-- The getter `get hash()`. -/
def get_hash (state : LocationState) : String :=
  match (_url state).fragment with
  | none => ""
  | some fragment => if fragment = "" then "" else "#" ++ fragment

/-- The method `_locationObjectNavigate(url, { replacement = false } = {})`;
`replacement` is the destructured option after defaulting. -/
def _locationObjectNavigate (state : LocationState) (url : URLRecord) (replacement : Bool) :
    LocationState :=
  navigate state state._relevantDocument._defaultView url
    [("replacement", replacement), ("exceptionsEnabled", true)]

/-- The method `_locationObjectSetterNavigate(url)`: it calls
`_locationObjectNavigate(url)` with no options, so `replacement` defaults to
`false`. -/
def _locationObjectSetterNavigate (state : LocationState) (url : URLRecord) : LocationState :=
  _locationObjectNavigate state url false

/-- The setter `set href(v)`. -/
def set_href (lib : URLLib) (helpers : DocumentHelpers) (state : LocationState) (v : String) :
    Completion × LocationState :=
  match lib.parseURL v (helpers.documentBaseURL state._relevantDocument) with
  | none => (.throw (.typeError ("Could not parse \"" ++ v ++ "\" as a URL")), state)
  | some newURL => (.normal, _locationObjectSetterNavigate state newURL)

/-- The setter `set protocol(v)`. -/
def set_protocol (lib : URLLib) (state : LocationState) (v : String) :
    Completion × LocationState :=
  let parsed := lib.basicURLParse (v ++ ":") (_url state) .schemeStart none
  let copyURL := parsed.url
  if parsed.failure then
    (.throw (.typeError
      ("Could not parse the URL after setting the procol to \"" ++ v ++ "\"")), state)
  else if copyURL.scheme ≠ "http" ∧ copyURL.scheme ≠ "https" then
    (.normal, state)
  else
    (.normal, _locationObjectSetterNavigate state copyURL)

/-- The setter `set host(v)`. -/
def set_host (lib : URLLib) (state : LocationState) (v : String) :
    Completion × LocationState :=
  let copyURL := _url state
  if copyURL.cannotBeABaseURL then
    (.normal, state)
  else
    let copyURL := (lib.basicURLParse v copyURL .host none).url
    (.normal, _locationObjectSetterNavigate state copyURL)

/-- The setter `set hostname(v)`. -/
def set_hostname (lib : URLLib) (state : LocationState) (v : String) :
    Completion × LocationState :=
  let copyURL := _url state
  if copyURL.cannotBeABaseURL then
    (.normal, state)
  else
    let copyURL := (lib.basicURLParse v copyURL .hostname none).url
    (.normal, _locationObjectSetterNavigate state copyURL)

/-- The setter `set port(v)`. -/
def set_port (lib : URLLib) (state : LocationState) (v : String) :
    Completion × LocationState :=
  let copyURL := _url state
  if copyURL.host = none ∨ copyURL.cannotBeABaseURL = true ∨ copyURL.scheme = "file" then
    (.normal, state)
  else
    let copyURL := (lib.basicURLParse v copyURL .port none).url
    (.normal, _locationObjectSetterNavigate state copyURL)

/-- The setter `set pathname(v)`. -/
def set_pathname (lib : URLLib) (state : LocationState) (v : String) :
    Completion × LocationState :=
  let copyURL := _url state
  if copyURL.cannotBeABaseURL then
    (.normal, state)
  else
    let copyURL := { copyURL with path := [] }
    let copyURL := (lib.basicURLParse v copyURL .pathStart none).url
    (.normal, _locationObjectSetterNavigate state copyURL)

/-- The expression `v[0] === c ? v.substring(1) : v`. -/
def stripLeading (c : Char) (v : String) : String :=
  match v.data with
  | first :: rest => if first = c then String.mk rest else v
  | [] => v

/-- The setter `set search(v)`. -/
def set_search (lib : URLLib) (state : LocationState) (v : String) :
    Completion × LocationState :=
  let copyURL := _url state
  let copyURL :=
    if v = "" then
      { copyURL with query := none }
    else
      let input := stripLeading '?' v
      let copyURL := { copyURL with query := some "" }
      (lib.basicURLParse input copyURL .query (some state._relevantDocument.charset)).url
  (.normal, _locationObjectSetterNavigate state copyURL)

/-- The setter `set hash(v)`. -/
def set_hash (lib : URLLib) (state : LocationState) (v : String) :
    Completion × LocationState :=
  let copyURL := _url state
  if copyURL.scheme = "javascript" then
    (.normal, state)
  else
    let copyURL :=
      if v = "" then
        { copyURL with fragment := none }
      else
        let input := stripLeading '#' v
        let copyURL := { copyURL with fragment := some "" }
        (lib.basicURLParse input copyURL .fragment none).url
    (.normal, _locationObjectSetterNavigate state copyURL)

/-- The message both `assign` and `replace` build for their exception. -/
def couldNotResolve (lib : URLLib) (state : LocationState) (url : String) : String :=
  "Could not resolve the given string \"" ++ url ++ "\" relative to the base URL \""
    ++ state._relevantDocument.URL lib ++ "\""

/-- The method `assign(url)`. -/
def assign (lib : URLLib) (helpers : DocumentHelpers) (state : LocationState) (url : String) :
    Completion × LocationState :=
  match parseURLToResultingURLRecord lib helpers url state._relevantDocument with
  | none => (.throw (.domException (couldNotResolve lib state url) "SyntaxError"), state)
  | some parsedURL => (.normal, _locationObjectNavigate state parsedURL false)

/-- The method `replace(url)`. -/
def replace (lib : URLLib) (helpers : DocumentHelpers) (state : LocationState) (url : String) :
    Completion × LocationState :=
  match parseURLToResultingURLRecord lib helpers url state._relevantDocument with
  | none => (.throw (.domException (couldNotResolve lib state url) "SyntaxError"), state)
  | some parsedURL => (.normal, _locationObjectNavigate state parsedURL true)

/-- The method `reload()`: the flags literal is
`{ replace: true, reloadTriggered: true, exceptionsEnabled: true }`. -/
def reload (state : LocationState) : Completion × LocationState :=
  let flags : Flags := [("replace", true), ("reloadTriggered", true), ("exceptionsEnabled", true)]
  (.normal, navigate state state._relevantDocument._defaultView (_url state) flags)

end LocationImpl

/-! ## The JavaScript object model under the proxy -/

/-- A property key: a string or a symbol. -/
inductive PropertyKey where
  | string (name : String)
  | symbol (id : Nat)
  deriving DecidableEq, Repr

/-- A reference to an object: an ordinary object at a heap address, or the
`Proxy` that `init` creates around the location wrapper. -/
inductive Ref where
  | ordinary (address : Nat)
  | locationProxy
  deriving DecidableEq, Repr

/-- A JavaScript value. -/
inductive Value where
  | undefined
  | null
  | boolean (b : Bool)
  | number (n : Int)
  | string (s : String)
  | object (ref : Ref)
  deriving DecidableEq, Repr

/-- An own property as an ordinary object stores it, every attribute
present.  A getter or setter is a function object, or `none` for `undefined`. -/
inductive Property where
  | data (value : Value) (writable enumerable configurable : Bool)
  | accessor (get set : Option Ref) (enumerable configurable : Bool)
  deriving DecidableEq, Repr

/-- A property descriptor whose fields may be absent (`none`); for `get` and
`set`, `some none` is a field that is present and `undefined`. -/
structure PropertyDescriptor where
  value : Option Value
  writable : Option Bool
  get : Option (Option Ref)
  set : Option (Option Ref)
  enumerable : Option Bool
  configurable : Option Bool
  deriving DecidableEq, Repr

/-- An ordinary object: own properties in creation order, `[[Prototype]]`
and `[[Extensible]]`. -/
structure JSObject where
  properties : List (PropertyKey × Property)
  prototype : Option Ref
  extensible : Bool
  deriving DecidableEq, Repr

/-- One invocation of a function object: `Reflect.apply(callee, thisArgument,
arguments)` or the abstract operation `Call`.  The body of the function is
outside the model; the invocation is recorded. -/
structure Call where
  callee : Ref
  thisArgument : Value
  arguments : List Value
  deriving DecidableEq, Repr

/-- The state the traps run in: the heap of ordinary objects, the address
of the location wrapper (the target of the proxy), the array
`_defaultProperties` stored on the impl by `init`, and the function
invocations made so far, oldest first. -/
structure Realm where
  heap : Nat → JSObject
  locationWrapper : Nat
  _defaultProperties : List PropertyKey
  calls : List Call

/-- A returned value or a thrown error. -/
inductive Result (α : Type) where
  | value (a : α)
  | throw (error : JSError)
  deriving DecidableEq, Repr

/-- The result of a trap, and the realm after it. -/
abbrev Trap (α : Type) := Result α × Realm

namespace Property

/-- The `[[Enumerable]]` attribute. -/
def enumerable : Property → Bool
  | .data _ _ e _ => e
  | .accessor _ _ e _ => e

/-- The `[[Configurable]]` attribute. -/
def configurable : Property → Bool
  | .data _ _ _ c => c
  | .accessor _ _ _ c => c

/-- The abstract operation `FromPropertyDescriptor` on a stored property. -/
def toDescriptor : Property → PropertyDescriptor
  | .data v w e c => ⟨some v, some w, none, none, some e, some c⟩
  | .accessor g s e c => ⟨none, none, some g, some s, some e, some c⟩

end Property

namespace PropertyDescriptor

/-- The abstract operation `IsAccessorDescriptor`. -/
def isAccessorDescriptor (Desc : PropertyDescriptor) : Bool :=
  Desc.get.isSome || Desc.set.isSome

/-- The abstract operation `IsDataDescriptor`. -/
def isDataDescriptor (Desc : PropertyDescriptor) : Bool :=
  Desc.value.isSome || Desc.writable.isSome

/-- The abstract operation `IsGenericDescriptor`. -/
def isGenericDescriptor (Desc : PropertyDescriptor) : Bool :=
  !Desc.isAccessorDescriptor && !Desc.isDataDescriptor

/-- The test "Desc does not have any fields". -/
def hasNoFields (Desc : PropertyDescriptor) : Bool :=
  Desc.isGenericDescriptor && Desc.enumerable.isNone && Desc.configurable.isNone

end PropertyDescriptor

/-- The own property of a property list at a key, if any. -/
def findProperty (P : PropertyKey) : List (PropertyKey × Property) → Option Property
  | [] => none
  | (k, p) :: rest => if k = P then some p else findProperty P rest

/-- Store a property at a key: in place when the key exists, else at the end. -/
def storeProperty (P : PropertyKey) (p : Property) :
    List (PropertyKey × Property) → List (PropertyKey × Property)
  | [] => [(P, p)]
  | (k, q) :: rest => if k = P then (k, p) :: rest else (k, q) :: storeProperty P p rest

/-- Remove the property at a key. -/
def removeProperty (P : PropertyKey) (properties : List (PropertyKey × Property)) :
    List (PropertyKey × Property) :=
  properties.filter (fun entry => entry.1 ≠ P)

/-- Replace the object at one heap address. -/
def writeHeap (heap : Nat → JSObject) (address : Nat) (object : JSObject) : Nat → JSObject :=
  fun a => if a = address then object else heap a

/-- The abstract operation `OrdinaryGetOwnProperty(O, P)`. -/
def OrdinaryGetOwnProperty (heap : Nat → JSObject) (O : Nat) (P : PropertyKey) :
    Option Property :=
  findProperty P (heap O).properties

/-- The abstract operation `ValidateAndApplyPropertyDescriptor` of ECMAScript
for an object that exists: `none` is the result `false`; `some p` is the
result `true`, with `p` the property as it stands afterwards. -/
def ValidateAndApplyPropertyDescriptor (extensible : Bool) (Desc : PropertyDescriptor)
    (current : Option Property) : Option Property :=
  match current with
  | none =>
    if !extensible then none
    else if Desc.isAccessorDescriptor then
      some (.accessor (Desc.get.getD none) (Desc.set.getD none)
        (Desc.enumerable.getD false) (Desc.configurable.getD false))
    else
      some (.data (Desc.value.getD .undefined) (Desc.writable.getD false)
        (Desc.enumerable.getD false) (Desc.configurable.getD false))
  | some (.data v w e c) =>
    if Desc.hasNoFields then some (.data v w e c)
    else if !c && (Desc.configurable == some true
        || (Desc.enumerable.isSome && Desc.enumerable != some e)
        || (!Desc.isGenericDescriptor && Desc.isAccessorDescriptor)
        || (!w && (Desc.writable == some true
            || (Desc.value.isSome && Desc.value != some v)))) then none
    else if Desc.isAccessorDescriptor then
      some (.accessor (Desc.get.getD none) (Desc.set.getD none)
        (Desc.enumerable.getD e) (Desc.configurable.getD c))
    else
      some (.data (Desc.value.getD v) (Desc.writable.getD w)
        (Desc.enumerable.getD e) (Desc.configurable.getD c))
  | some (.accessor g s e c) =>
    if Desc.hasNoFields then some (.accessor g s e c)
    else if !c && (Desc.configurable == some true
        || (Desc.enumerable.isSome && Desc.enumerable != some e)
        || (!Desc.isGenericDescriptor && !Desc.isAccessorDescriptor)
        || (Desc.get.isSome && Desc.get != some g)
        || (Desc.set.isSome && Desc.set != some s)) then none
    else if Desc.isDataDescriptor then
      some (.data (Desc.value.getD .undefined) (Desc.writable.getD false)
        (Desc.enumerable.getD e) (Desc.configurable.getD c))
    else
      some (.accessor (Desc.get.getD g) (Desc.set.getD s)
        (Desc.enumerable.getD e) (Desc.configurable.getD c))

/-- The abstract operation `OrdinaryDefineOwnProperty(O, P, Desc)`: the
boolean result and the heap afterwards. -/
def OrdinaryDefineOwnProperty (heap : Nat → JSObject) (O : Nat) (P : PropertyKey)
    (Desc : PropertyDescriptor) : Bool × (Nat → JSObject) :=
  match ValidateAndApplyPropertyDescriptor (heap O).extensible Desc
      (OrdinaryGetOwnProperty heap O P) with
  | none => (false, heap)
  | some p =>
    (true, writeHeap heap O { heap O with properties := storeProperty P p (heap O).properties })

/-- The abstract operation `OrdinaryDelete(O, P)`. -/
def OrdinaryDelete (heap : Nat → JSObject) (O : Nat) (P : PropertyKey) :
    Bool × (Nat → JSObject) :=
  match OrdinaryGetOwnProperty heap O P with
  | none => (true, heap)
  | some p =>
    if p.configurable then
      (true, writeHeap heap O { heap O with properties := removeProperty P (heap O).properties })
    else (false, heap)

/-- The list `OrdinaryOwnPropertyKeys(O)`, in the order the properties are
stored. -/
def OrdinaryOwnPropertyKeys (heap : Nat → JSObject) (O : Nat) : List PropertyKey :=
  (heap O).properties.map Prod.fst

/-- The function `Reflect.defineProperty(target, P, attributes)` on an ordinary
object: `ToPropertyDescriptor` throws a `TypeError` for a descriptor with both
accessor and data fields; otherwise it is `[[DefineOwnProperty]]`. -/
def Reflect.defineProperty (realm : Realm) (target : Nat) (P : PropertyKey)
    (attributes : PropertyDescriptor) : Trap Bool :=
  if attributes.isAccessorDescriptor && attributes.isDataDescriptor then
    (.throw (.typeError "Invalid property descriptor"), realm)
  else
    let result := OrdinaryDefineOwnProperty realm.heap target P attributes
    (.value result.1, { realm with heap := result.2 })

/-- The function `Reflect.deleteProperty(target, P)` on an ordinary object. -/
def Reflect.deleteProperty (realm : Realm) (target : Nat) (P : PropertyKey) : Trap Bool :=
  let result := OrdinaryDelete realm.heap target P
  (.value result.1, { realm with heap := result.2 })

/-- The function `Reflect.getOwnPropertyDescriptor(target, P)` on an ordinary
object; `none` is `undefined`. -/
def Reflect.getOwnPropertyDescriptor (realm : Realm) (target : Nat) (P : PropertyKey) :
    Option PropertyDescriptor :=
  (OrdinaryGetOwnProperty realm.heap target P).map Property.toDescriptor

/-- The function `Reflect.getPrototypeOf(target)` on an ordinary object;
`none` is `null`. -/
def Reflect.getPrototypeOf (realm : Realm) (target : Nat) : Option Ref :=
  (realm.heap target).prototype

/-- The function `Reflect.ownKeys(target)` on an ordinary object. -/
def Reflect.ownKeys (realm : Realm) (target : Nat) : List PropertyKey :=
  OrdinaryOwnPropertyKeys realm.heap target

/-! ## The traps of `proxyHandler`

Every trap receives the proxy's target; the handler is installed on one
proxy only, so `idlUtils.implForWrapper(target)._defaultProperties` is the
realm's `_defaultProperties`. -/

namespace proxyHandler

/-- The trap `getPrototypeOf(target)`. -/
def getPrototypeOf (realm : Realm) (target : Nat) : Option Ref :=
  Reflect.getPrototypeOf realm target

/-- The trap `setPrototypeOf(target, V)`: `Object.is(V, current)`. -/
def setPrototypeOf (realm : Realm) (target : Nat) (V : Option Ref) : Trap Bool :=
  let current := getPrototypeOf realm target
  (.value (decide (V = current)), realm)

/-- The trap `isExtensible()`. -/
def isExtensible (realm : Realm) : Trap Bool :=
  (.value true, realm)

/-- The trap `preventExtensions()`. -/
def preventExtensions (realm : Realm) : Trap Bool :=
  (.value false, realm)

/-- The trap `getOwnPropertyDescriptor(target, P)`; the block that would set
`desc.configurable = true` is commented out in the source. -/
def getOwnPropertyDescriptor (realm : Realm) (target : Nat) (P : PropertyKey) :
    Option PropertyDescriptor :=
  let desc := Reflect.getOwnPropertyDescriptor realm target P
  desc

/-- The trap `defineProperty(target, P, desc)`. -/
def defineProperty (realm : Realm) (target : Nat) (P : PropertyKey) (desc : PropertyDescriptor) :
    Trap Bool :=
  if realm._defaultProperties.contains P then
    (.value false, realm)
  else
    Reflect.defineProperty realm target P desc

/-- The trap `deleteProperty(target, P)`. -/
def deleteProperty (realm : Realm) (target : Nat) (P : PropertyKey) : Trap Bool :=
  if realm._defaultProperties.contains P then
    (.value false, realm)
  else
    Reflect.deleteProperty realm target P

/-- The trap `ownKeys(target)`. -/
def ownKeys (realm : Realm) (target : Nat) : List PropertyKey :=
  Reflect.ownKeys realm target

end proxyHandler

/-! ## `Reflect` on an arbitrary receiver

The receiver of a `set` is any value.  On the location proxy the internal
methods `[[GetOwnProperty]]` and `[[DefineOwnProperty]]` run the traps
above; the checks the engine makes on a trap result are satisfied by these
traps, which answer from the target itself. -/

/-- The function `Reflect.getOwnPropertyDescriptor(receiver, P)`. -/
def Reflect.getOwnPropertyDescriptorOf (realm : Realm) (receiver : Value) (P : PropertyKey) :
    Result (Option PropertyDescriptor) :=
  match receiver with
  | .object (.ordinary address) => .value (Reflect.getOwnPropertyDescriptor realm address P)
  | .object .locationProxy =>
    .value (proxyHandler.getOwnPropertyDescriptor realm realm.locationWrapper P)
  | _ => .throw (.typeError "Reflect.getOwnPropertyDescriptor called on non-object")

/-- The function `Reflect.defineProperty(receiver, P, attributes)`. -/
def Reflect.definePropertyOf (realm : Realm) (receiver : Value) (P : PropertyKey)
    (attributes : PropertyDescriptor) : Trap Bool :=
  match receiver with
  | .object (.ordinary address) => Reflect.defineProperty realm address P attributes
  | .object .locationProxy =>
    if attributes.isAccessorDescriptor && attributes.isDataDescriptor then
      (.throw (.typeError "Invalid property descriptor"), realm)
    else
      proxyHandler.defineProperty realm realm.locationWrapper P attributes
  | _ => (.throw (.typeError "Reflect.defineProperty called on non-object"), realm)

/-- The signature of `[[Set]]` on an object reference, as `Reflect.set(O, P,
V, receiver)` runs it. -/
abbrev SetMethod := Realm → Ref → PropertyKey → Value → Value → Trap Bool

/-- The descriptor `{ value: V }`. -/
def valueOnly (V : Value) : PropertyDescriptor :=
  ⟨some V, none, none, none, none, none⟩

/-- The descriptor `{ writable: true, enumerable: true, configurable: true,
value: V }`. -/
def freshData (V : Value) : PropertyDescriptor :=
  ⟨some V, some true, none, none, some true, some true⟩

/-- The second half of the trap `set`, from `if (!ownDesc.writable)` on. -/
def proxyHandler.setWithOwnDesc (realm : Realm) (P : PropertyKey) (V : Value)
    (receiver : Value) (ownDesc : PropertyDescriptor) : Trap Bool :=
  if ownDesc.writable ≠ some true then
    (.value false, realm)
  else
    match Reflect.getOwnPropertyDescriptorOf realm receiver P with
    | .throw e => (.throw e, realm)
    | .value (some existingDesc) =>
      if (existingDesc.get.getD none).isSome || (existingDesc.set.getD none).isSome then
        (.value false, realm)
      else if existingDesc.writable ≠ some true then
        (.value false, realm)
      else
        Reflect.definePropertyOf realm receiver P (valueOnly V)
    | .value none =>
      Reflect.definePropertyOf realm receiver P (freshData V)

/-- The trap `set(target, P, V, receiver)`; `reflectSet` is `Reflect.set`. -/
def proxyHandler.set (reflectSet : SetMethod) (realm : Realm) (target : Nat) (P : PropertyKey)
    (V : Value) (receiver : Value) : Trap Bool :=
  match proxyHandler.getOwnPropertyDescriptor realm target P with
  | none =>
    match proxyHandler.getPrototypeOf realm target with
    | some parent => reflectSet realm parent P V receiver
    | none => proxyHandler.setWithOwnDesc realm P V receiver (freshData .undefined)
  | some ownDesc => proxyHandler.setWithOwnDesc realm P V receiver ownDesc

/-! ## `OrdinarySet`, as ECMAScript words it -/

/-- The internal method `[[GetOwnProperty]]` of a receiver that is an object. -/
def getOwnPropertyOf (realm : Realm) (receiver : Ref) (P : PropertyKey) :
    Option PropertyDescriptor :=
  match receiver with
  | .ordinary address => Reflect.getOwnPropertyDescriptor realm address P
  | .locationProxy => proxyHandler.getOwnPropertyDescriptor realm realm.locationWrapper P

/-- The internal method `[[DefineOwnProperty]]` of a receiver that is an
object, for a descriptor that is already a Property Descriptor. -/
def defineOwnPropertyOf (realm : Realm) (receiver : Ref) (P : PropertyKey)
    (Desc : PropertyDescriptor) : Trap Bool :=
  match receiver with
  | .ordinary address =>
    let result := OrdinaryDefineOwnProperty realm.heap address P Desc
    (.value result.1, { realm with heap := result.2 })
  | .locationProxy => proxyHandler.defineProperty realm realm.locationWrapper P Desc

/-- The abstract operation `OrdinarySetWithOwnDescriptor(O, P, V, Receiver,
ownDesc)` of ECMAScript, written from the standard: `parentSet` is the
`[[Set]]` of the parent, `prototype` is `O.[[GetPrototypeOf]]()`. -/
def OrdinarySetWithOwnDescriptor (parentSet : SetMethod) (realm : Realm)
    (prototype : Option Ref) (P : PropertyKey) (V : Value) (Receiver : Value)
    (ownDesc : Option Property) : Trap Bool :=
  let dataCase (writable : Bool) : Trap Bool :=
    if !writable then (.value false, realm)
    else
      match Receiver with
      | .object receiver =>
        match getOwnPropertyOf realm receiver P with
        | some existingDescriptor =>
          if existingDescriptor.isAccessorDescriptor then (.value false, realm)
          else if existingDescriptor.writable == some false then (.value false, realm)
          else defineOwnPropertyOf realm receiver P (valueOnly V)
        | none => defineOwnPropertyOf realm receiver P (freshData V)
      | _ => (.value false, realm)
  match ownDesc with
  | none =>
    match prototype with
    | some parent => parentSet realm parent P V Receiver
    | none => dataCase true
  | some (.data _ writable _ _) => dataCase writable
  | some (.accessor _ setter _ _) =>
    match setter with
    | none => (.value false, realm)
    | some f => (.value true, { realm with calls := realm.calls ++ [⟨f, Receiver, [V]⟩] })

/-- The abstract operation `OrdinarySet(O, P, V, Receiver)` of ECMAScript. -/
def OrdinarySet (parentSet : SetMethod) (realm : Realm) (O : Nat) (P : PropertyKey)
    (V : Value) (Receiver : Value) : Trap Bool :=
  OrdinarySetWithOwnDescriptor parentSet realm (realm.heap O).prototype P V Receiver
    (OrdinaryGetOwnProperty realm.heap O P)

/-- The function `Reflect.set(O, P, V, receiver)` on an object reference:
the `[[Set]]` of an ordinary object is `OrdinarySet`, that of the location
proxy is the trap.  `depth` bounds the nesting of calls; when it is used up
the engine throws a `RangeError`. -/
def Reflect.set : Nat → SetMethod
  | 0, realm, _, _, _, _ =>
    (.throw (.rangeError "Maximum call stack size exceeded"), realm)
  | depth + 1, realm, .ordinary O, P, V, receiver =>
    OrdinarySet (Reflect.set depth) realm O P V receiver
  | depth + 1, realm, .locationProxy, P, V, receiver =>
    proxyHandler.set (Reflect.set depth) realm realm.locationWrapper P V receiver

/-! ## The trap `get` and `OrdinaryGet` -/

/-- The signature of `[[Get]]` on an object reference, as `Reflect.get(O, P,
receiver)` runs it. -/
abbrev GetMethod := Realm → Ref → PropertyKey → Value → Trap Value

/-- The function `Reflect.apply(f, thisArgument, arguments)`: the invocation
is recorded, and the value it returns is the one `returns` gives for it. -/
def Reflect.apply (returns : Call → Value) (realm : Realm) (f : Ref) (thisArgument : Value)
    (arguments : List Value) : Trap Value :=
  (.value (returns ⟨f, thisArgument, arguments⟩),
    { realm with calls := realm.calls ++ [⟨f, thisArgument, arguments⟩] })

/-- The trap `get(target, P, receiver)`; `reflectGet` is `Reflect.get`. -/
def proxyHandler.get (returns : Call → Value) (reflectGet : GetMethod) (realm : Realm)
    (target : Nat) (P : PropertyKey) (receiver : Value) : Trap Value :=
  match proxyHandler.getOwnPropertyDescriptor realm target P with
  | none =>
    match proxyHandler.getPrototypeOf realm target with
    | none => (.value .undefined, realm)
    | some _ => reflectGet realm (.ordinary target) P receiver
  | some desc =>
    if !(desc.get.getD none).isSome && !(desc.set.getD none).isSome then
      (.value (desc.value.getD .undefined), realm)
    else
      match desc.get.getD none with
      | none => (.value .undefined, realm)
      | some getter => Reflect.apply returns realm getter receiver []

/-- The abstract operation `OrdinaryGet(O, P, Receiver)` of ECMAScript,
written from the standard: `parentGet` is the `[[Get]]` of the parent. -/
def OrdinaryGet (returns : Call → Value) (parentGet : GetMethod) (realm : Realm) (O : Nat)
    (P : PropertyKey) (Receiver : Value) : Trap Value :=
  match OrdinaryGetOwnProperty realm.heap O P with
  | none =>
    match (realm.heap O).prototype with
    | none => (.value .undefined, realm)
    | some parent => parentGet realm parent P Receiver
  | some (.data value _ _ _) => (.value value, realm)
  | some (.accessor getter _ _ _) =>
    match getter with
    | none => (.value .undefined, realm)
    | some f => Reflect.apply returns realm f Receiver []

/-- The function `Reflect.get(O, P, receiver)` on an object reference, with
the same bound on the nesting of calls as `Reflect.set`. -/
def Reflect.get (returns : Call → Value) : Nat → GetMethod
  | 0, realm, _, _, _ =>
    (.throw (.rangeError "Maximum call stack size exceeded"), realm)
  | depth + 1, realm, .ordinary O, P, receiver =>
    OrdinaryGet returns (Reflect.get returns depth) realm O P receiver
  | depth + 1, realm, .locationProxy, P, receiver =>
    proxyHandler.get returns (Reflect.get returns depth) realm realm.locationWrapper P receiver

/-! ## `init` and sequences of trap calls -/

/-- The function `exports.init`: `_defaultProperties` becomes the own keys of
the wrapper, and the proxy is created around the wrapper. -/
def init (heap : Nat → JSObject) (locationWrapper : Nat) (calls : List Call) : Realm :=
  { heap := heap
    locationWrapper := locationWrapper
    _defaultProperties := OrdinaryOwnPropertyKeys heap locationWrapper
    calls := calls }

/-- A trap call made through the proxy that can change the target; `set` is
called with the proxy as receiver. -/
inductive TrapCall where
  | defineProperty (P : PropertyKey) (desc : PropertyDescriptor)
  | deleteProperty (P : PropertyKey)
  | set (P : PropertyKey) (V : Value)
  | setPrototypeOf (V : Option Ref)
  | preventExtensions
  deriving DecidableEq, Repr

/-- Run one trap call; the realm afterwards. -/
def TrapCall.run (depth : Nat) (realm : Realm) : TrapCall → Realm
  | .defineProperty P desc => (proxyHandler.defineProperty realm realm.locationWrapper P desc).2
  | .deleteProperty P => (proxyHandler.deleteProperty realm realm.locationWrapper P).2
  | .set P V =>
    (proxyHandler.set (Reflect.set depth) realm realm.locationWrapper P V
      (.object .locationProxy)).2
  | .setPrototypeOf V => (proxyHandler.setPrototypeOf realm realm.locationWrapper V).2
  | .preventExtensions => (proxyHandler.preventExtensions realm).2

/-- Run a sequence of trap calls, first to last. -/
def runTrapCalls (depth : Nat) (realm : Realm) (calls : List TrapCall) : Realm :=
  calls.foldl (TrapCall.run depth) realm

/-! ## Sequences of calls on one location -/

/-- A call of a setter or method of the class. -/
inductive LocationCall where
  | href (v : String)
  | protocol (v : String)
  | host (v : String)
  | hostname (v : String)
  | port (v : String)
  | pathname (v : String)
  | search (v : String)
  | hash (v : String)
  | assign (url : String)
  | replace (url : String)
  | reload
  deriving DecidableEq, Repr

/-- Run one call: how it completes and the state after it. -/
def LocationCall.run (lib : URLLib) (helpers : DocumentHelpers) (state : LocationState) :
    LocationCall → Completion × LocationState
  | .href v => LocationImpl.set_href lib helpers state v
  | .protocol v => LocationImpl.set_protocol lib state v
  | .host v => LocationImpl.set_host lib state v
  | .hostname v => LocationImpl.set_hostname lib state v
  | .port v => LocationImpl.set_port lib state v
  | .pathname v => LocationImpl.set_pathname lib state v
  | .search v => LocationImpl.set_search lib state v
  | .hash v => LocationImpl.set_hash lib state v
  | .assign url => LocationImpl.assign lib helpers state url
  | .replace url => LocationImpl.replace lib helpers state url
  | .reload => LocationImpl.reload state

/-- Whether a call meets one of the conditions under which its setter
returns early without an error: the `cannotBeABaseURL` test of `host`,
`hostname` and `pathname`, the three tests of `port`, the `javascript` test
of `hash`, and the scheme test of `protocol` after a parse that succeeded. -/
def LocationCall.hitsGuard (lib : URLLib) (state : LocationState) : LocationCall → Bool
  | .protocol v =>
    let parsed := lib.basicURLParse (v ++ ":") state._relevantDocument._URL .schemeStart none
    !parsed.failure && decide (parsed.url.scheme ≠ "http" ∧ parsed.url.scheme ≠ "https")
  | .host _ => state._relevantDocument._URL.cannotBeABaseURL
  | .hostname _ => state._relevantDocument._URL.cannotBeABaseURL
  | .pathname _ => state._relevantDocument._URL.cannotBeABaseURL
  | .port _ =>
    decide (state._relevantDocument._URL.host = none
      ∨ state._relevantDocument._URL.cannotBeABaseURL = true
      ∨ state._relevantDocument._URL.scheme = "file")
  | .hash _ => decide (state._relevantDocument._URL.scheme = "javascript")
  | _ => false

/-- The requests a call appends to the pipeline. -/
def LocationCall.requests (lib : URLLib) (helpers : DocumentHelpers) (state : LocationState)
    (call : LocationCall) : List NavigationRequest :=
  (call.run lib helpers state).2.pipeline.drop state.pipeline.length

/-- The state the next call of a sequence sees: the pipeline as the call left
it, and the document as `reaction` gives it, which stands for whatever the
navigation pipeline has done to the document in the meantime. -/
def nextState (reaction : LocationState → Document) (after : LocationState) : LocationState :=
  { after with _relevantDocument := reaction after }

/-- Run a sequence of calls, first to last. -/
def runCalls (lib : URLLib) (helpers : DocumentHelpers) (reaction : LocationState → Document)
    (state : LocationState) : List LocationCall → LocationState
  | [] => state
  | call :: rest =>
    runCalls lib helpers reaction (nextState reaction (call.run lib helpers state).2) rest

/-- The requests of the calls of a sequence, each call's requests in the
order in which the calls are invoked. -/
def requestLog (lib : URLLib) (helpers : DocumentHelpers) (reaction : LocationState → Document)
    (state : LocationState) : List LocationCall → List NavigationRequest
  | [] => []
  | call :: rest =>
    call.requests lib helpers state
      ++ requestLog lib helpers reaction (nextState reaction (call.run lib helpers state).2) rest

/-- Modelled from the spec: a requested navigation "applied as the
document's new URL"; the navigation pipeline itself is outside the file. -/
def applyNavigation (state : LocationState) (request : NavigationRequest) : LocationState :=
  { state with _relevantDocument := { state._relevantDocument with _URL := request.newURL } }

/-- The state after a call once the navigations the call requested, if any,
have been applied to the document. -/
def settle (before after : LocationState) : LocationState :=
  (after.pipeline.drop before.pipeline.length).foldl applyNavigation after

/-! ## The caller of a trap -/

/-- Who performs an operation on the proxy: the serialized origin of the
caller's active document. -/
structure Caller where
  origin : String
  deriving DecidableEq, Repr

/-- A `defineProperty` on the proxy by a caller: the engine hands the trap
`(target, P, desc)`, and the handler has no other source for the caller. -/
def definePropertyBy (_caller : Caller) (realm : Realm) (P : PropertyKey)
    (desc : PropertyDescriptor) : Trap Bool :=
  proxyHandler.defineProperty realm realm.locationWrapper P desc

/-- A `deleteProperty` on the proxy by a caller: the engine hands the trap
`(target, P)`. -/
def deletePropertyBy (_caller : Caller) (realm : Realm) (P : PropertyKey) : Trap Bool :=
  proxyHandler.deleteProperty realm realm.locationWrapper P

/-! ## Sample collaborators and inputs

A small stand-in for `whatwg-url`, used only where a setter is run at a
concrete input.  It follows the URL Standard on the inputs used below and
makes no attempt at the rest of the parser. -/

namespace Sample

/-- The special schemes of the URL Standard. -/
def isSpecialScheme (scheme : String) : Bool :=
  ["ftp", "file", "http", "https", "ws", "wss"].contains scheme

/-- The default port of a special scheme. -/
def defaultPort (scheme : String) : Option Nat :=
  if scheme = "ftp" then some 21
  else if scheme = "http" ∨ scheme = "ws" then some 80
  else if scheme = "https" ∨ scheme = "wss" then some 443
  else none

/-- Scheme start state and scheme state under a state override, for an input
made of ASCII letters followed by `:`; any other input is a failure. -/
def parseScheme (input : String) (url : URLRecord) : ParseOutcome :=
  let buffer := String.mk (input.data.dropLast.map Char.toLower)
  if input.data.getLast? ≠ some ':' ∨ buffer = "" ∨ !input.data.dropLast.all Char.isAlpha then
    ⟨url, true⟩
  else if isSpecialScheme url.scheme ≠ isSpecialScheme buffer then
    ⟨url, false⟩
  else
    ⟨{ url with
        scheme := buffer
        port := if url.port = defaultPort buffer then none else url.port }, false⟩

/-- Host state under a state override, for a domain without a port: an empty
host on a special URL is a failure that leaves the record as it was. -/
def parseHost (input : String) (url : URLRecord) : ParseOutcome :=
  if input = "" ∧ isSpecialScheme url.scheme then ⟨url, true⟩
  else ⟨{ url with host := some (.domain input) }, false⟩

/-- The stand-in for `basicURLParse`. -/
def basicURLParse (input : String) (url : URLRecord) (stateOverride : StateOverride)
    (_encodingOverride : Option String) : ParseOutcome :=
  match stateOverride with
  | .schemeStart => parseScheme input url
  | .host => parseHost input url
  | .hostname => parseHost input url
  | .port =>
    let digits := input.data.takeWhile Char.isDigit
    let port := digits.foldl (fun n c => 10 * n + (c.toNat - 48)) 0
    if digits = [] then ⟨url, false⟩
    else if port > 65535 then ⟨url, true⟩
    else ⟨{ url with port := if some port = defaultPort url.scheme then none else some port },
      false⟩
  | .pathStart => ⟨{ url with path := [LocationImpl.stripLeading '/' input] }, false⟩
  | .query => ⟨{ url with query := some input }, false⟩
  | .fragment => ⟨{ url with fragment := some input }, false⟩

/-- The URL serializer for a record without credentials. -/
def serializeURL (serializeHost : Host → String) (url : URLRecord) : String :=
  url.scheme ++ ":"
    ++ (match url.host with
        | some host =>
          "//" ++ serializeHost host
            ++ (match url.port with
                | some port => ":" ++ toString port
                | none => "")
        | none => "")
    ++ (if url.cannotBeABaseURL then url.path.headD ""
        else String.join (url.path.map (fun segment => "/" ++ segment)))
    ++ (match url.query with
        | some query => "?" ++ query
        | none => "")
    ++ (match url.fragment with
        | some fragment => "#" ++ fragment
        | none => "")

/-- The host serializer, for domains and hosts of non-special URLs. -/
def serializeHost : Host → String
  | .domain name => name
  | .other text => text
  | .ipv4 address => toString address
  | .ipv6 pieces => "[" ++ ":".intercalate (pieces.map toString) ++ "]"

/-- The record of `http://a.example/page`. -/
def pageURL : URLRecord :=
  ⟨"http", "", "", some (.domain "a.example"), none, ["page"], none, none, false⟩

/-- The record of `http://b.example/dir/`. -/
def dirURL : URLRecord :=
  ⟨"http", "", "", some (.domain "b.example"), none, ["dir", ""], none, none, false⟩

/-- The record of `https://b.example/next`. -/
def nextURL : URLRecord :=
  ⟨"https", "", "", some (.domain "b.example"), none, ["next"], none, none, false⟩

/-- The stand-in for `parseURL` knows one absolute URL; `http://[` and all
other inputs fail, as an unterminated IPv6 host does. -/
def parseURL (input : String) (_baseURL : URLRecord) : Option URLRecord :=
  if input = "https://b.example/next" then some nextURL else none

/-- The stand-in library. -/
def lib : URLLib :=
  { parseURL := parseURL
    basicURLParse := basicURLParse
    serializeURL := serializeURL serializeHost
    serializeURLOrigin := fun url => url.scheme ++ "://" ++ (url.host.map serializeHost).getD ""
    serializeHost := serializeHost
    serializeInteger := fun n => toString n }

/-- Helpers for a document without a `base` element: the document base URL
is the document's URL. -/
def plainHelpers : DocumentHelpers :=
  ⟨fun document => document._URL⟩

/-- Helpers for a document whose `base` element has the `href`
`http://b.example/dir/`: that is the document base URL. -/
def baseElementHelpers : DocumentHelpers :=
  ⟨fun _ => dirURL⟩

/-- A location on a document at `http://a.example/page`, nothing requested. -/
def pageState : LocationState :=
  ⟨⟨pageURL, "UTF-8", 0⟩, []⟩

/-- Whether `needle` occurs in `text`. -/
def occursIn (needle text : String) : Bool :=
  text.data.tails.any (fun rest => needle.data.isPrefixOf rest)

/-- The message `assign("http://[")` and `replace("http://[")` throw on a
document at `http://a.example/page`. -/
def unresolvedMessage : String :=
  "Could not resolve the given string \"http://[\" relative to the base URL "
    ++ "\"http://a.example/page\""

/-- The key `href`. -/
def href : PropertyKey := .string "href"

/-- The key `assign`. -/
def assignKey : PropertyKey := .string "assign"

/-- The key `expando`, which no wrapper starts with. -/
def expando : PropertyKey := .string "expando"

/-- The function object of the `href` getter. -/
def hrefGetter : Ref := .ordinary 10

/-- The function object of the `href` setter. -/
def hrefSetter : Ref := .ordinary 11

/-- The function object of `assign`. -/
def assignFunction : Ref := .ordinary 12

/-- A location wrapper as the generated binding leaves it: `href` is an own
accessor and `assign` an own method, both non-configurable, `assign`
non-writable; its prototype is the object at address 1. -/
def wrapper : JSObject :=
  { properties :=
      [(href, .accessor (some hrefGetter) (some hrefSetter) true false),
       (assignKey, .data (.object assignFunction) false true false)]
    prototype := some (.ordinary 1)
    extensible := true }

/-- A heap with the wrapper at address 0, an empty prototype object at
address 1, and empty objects without a prototype elsewhere. -/
def heap : Nat → JSObject :=
  fun address =>
    if address = 0 then wrapper
    else if address = 1 then ⟨[], some (.ordinary 2), true⟩
    else ⟨[], none, true⟩

/-- The realm after `init` on the wrapper at address 0. -/
def realm : Realm := init heap 0 []

/-- The record of `https://a.example/path?x=1#frag`. -/
def searchURL : URLRecord :=
  ⟨"https", "", "", some (.domain "a.example"), none, ["path"], some "x=1", some "frag", false⟩

/-- A location on a document at `https://a.example/path?x=1#frag`. -/
def searchState : LocationState :=
  ⟨⟨searchURL, "UTF-8", 0⟩, []⟩

/-- The record of `mailto:someone@a.example`, which cannot be a base URL. -/
def mailtoURL : URLRecord :=
  ⟨"mailto", "", "", none, none, ["someone@a.example"], none, none, true⟩

/-- A location on a document at `mailto:someone@a.example`. -/
def mailtoState : LocationState :=
  ⟨⟨mailtoURL, "UTF-8", 0⟩, []⟩

/-- The record of `javascript:void(0)#x`. -/
def scriptURL : URLRecord :=
  ⟨"javascript", "", "", none, none, ["void(0)"], none, some "x", true⟩

/-- A location on a document at `javascript:void(0)#x`. -/
def scriptState : LocationState :=
  ⟨⟨scriptURL, "UTF-8", 0⟩, []⟩

/-- The record of `http://a.example:8080/page`. -/
def portURL : URLRecord :=
  ⟨"http", "", "", some (.domain "a.example"), some 8080, ["page"], none, none, false⟩

/-- A location on a document at `http://a.example:8080/page`. -/
def portState : LocationState :=
  ⟨⟨portURL, "UTF-8", 0⟩, []⟩

/-- The record of `file:///tmp/page`. -/
def fileURL : URLRecord :=
  ⟨"file", "", "", some (.domain ""), none, ["tmp", "page"], none, none, false⟩

/-- A location on a document at `file:///tmp/page`. -/
def fileState : LocationState :=
  ⟨⟨fileURL, "UTF-8", 0⟩, []⟩

/-- A caller whose document is at another origin than the location's. -/
def foreignCaller : Caller := ⟨"https://evil.example"⟩

/-- What a getter or method returns when invoked: a string that names the
function object, so that different invocations are told apart. -/
def returns (call : Call) : Value :=
  match call.callee with
  | .ordinary address => .string ("result of function " ++ toString address)
  | .locationProxy => .undefined

end Sample

/-! ## What a trap call leaves alone -/

/-- The relation between a realm and a later one in which
`_defaultProperties` and the target are the same and every key of
`_defaultProperties` has the own property on the target that it had. -/
def Untouched (before after : Realm) : Prop :=
  after._defaultProperties = before._defaultProperties ∧
  after.locationWrapper = before.locationWrapper ∧
  ∀ k, k ∈ before._defaultProperties →
    OrdinaryGetOwnProperty after.heap before.locationWrapper k =
      OrdinaryGetOwnProperty before.heap before.locationWrapper k

/-! ## Theorems: the location class -/

namespace LocationImpl

/-- Every navigation a setter requests passes `replacement: false`. -/
theorem setterNavigate_eq (state : LocationState) (url : URLRecord) :
    _locationObjectSetterNavigate state url =
      { state with pipeline := state.pipeline ++
          [⟨state._relevantDocument._defaultView, url,
            [("replacement", false), ("exceptionsEnabled", true)]⟩] } := rfl

/-- C1, as the code behaves: `reload()` returns normally and appends exactly
one request, whose target is the current URL record and whose flags carry
`reloadTriggered = true`; the flags object has a key `replace`, and its
`replacement` flag is absent. -/
theorem reload_flags_lack_replacement (state : LocationState) :
    ∃ request : NavigationRequest,
      reload state = (.normal, { state with pipeline := state.pipeline ++ [request] }) ∧
      request.window = state._relevantDocument._defaultView ∧
      request.newURL = state._relevantDocument._URL ∧
      request.reloadTriggered = some true ∧
      request.exceptionsEnabled = some true ∧
      request.flags.read "replace" = some true ∧
      request.replacement = none := by
  refine ⟨⟨state._relevantDocument._defaultView, state._relevantDocument._URL,
    [("replace", true), ("reloadTriggered", true), ("exceptionsEnabled", true)]⟩, rfl, rfl, rfl,
    ?_, ?_, ?_, ?_⟩ <;>
    simp [NavigationRequest.reloadTriggered, NavigationRequest.exceptionsEnabled,
      NavigationRequest.replacement, Flags.read, List.find?]

/-- C7: the protocol setter parses `v + ":"` in scheme start state into a
copy of the current record.  If the parse reports failure it throws a
`TypeError` and the state (document and pipeline) is as before; otherwise, if
the copy's scheme is neither `http` nor `https`, it returns normally and the
state is as before; otherwise it returns normally and appends exactly one
request, to the copy, with `replacement = false`. -/
theorem set_protocol_cases (lib : URLLib) (state : LocationState) (v : String) :
    let parsed := lib.basicURLParse (v ++ ":") state._relevantDocument._URL .schemeStart none
    (parsed.failure = true →
      ∃ message, set_protocol lib state v = (.throw (.typeError message), state)) ∧
    (parsed.failure = false → parsed.url.scheme ≠ "http" → parsed.url.scheme ≠ "https" →
      set_protocol lib state v = (.normal, state)) ∧
    (parsed.failure = false → parsed.url.scheme = "http" ∨ parsed.url.scheme = "https" →
      ∃ request : NavigationRequest,
        set_protocol lib state v =
          (.normal, { state with pipeline := state.pipeline ++ [request] }) ∧
        request.window = state._relevantDocument._defaultView ∧
        request.newURL = parsed.url ∧
        request.replacement = some false) := by
  intro parsed
  refine ⟨fun hfail => ?_, fun hok h1 h2 => ?_, fun hok hscheme => ?_⟩
  · have hfail' : (lib.basicURLParse (v ++ ":") state._relevantDocument._URL
        .schemeStart none).failure = true := hfail
    exact ⟨"Could not parse the URL after setting the procol to \"" ++ v ++ "\"",
      by simp [set_protocol, _url, hfail']⟩
  · have h1' : (lib.basicURLParse (v ++ ":") state._relevantDocument._URL
        .schemeStart none).url.scheme ≠ "http" := h1
    have h2' : (lib.basicURLParse (v ++ ":") state._relevantDocument._URL
        .schemeStart none).url.scheme ≠ "https" := h2
    have hok' : (lib.basicURLParse (v ++ ":") state._relevantDocument._URL
        .schemeStart none).failure = false := hok
    simp [set_protocol, _url, hok', h1', h2']
  · have hok' : (lib.basicURLParse (v ++ ":") state._relevantDocument._URL
        .schemeStart none).failure = false := hok
    have hs : ¬ ((lib.basicURLParse (v ++ ":") state._relevantDocument._URL
        .schemeStart none).url.scheme ≠ "http" ∧
        (lib.basicURLParse (v ++ ":") state._relevantDocument._URL
        .schemeStart none).url.scheme ≠ "https") := by
      intro h
      rcases hscheme with h3 | h3
      · exact h.1 h3
      · exact h.2 h3
    refine ⟨⟨state._relevantDocument._defaultView, parsed.url,
      [("replacement", false), ("exceptionsEnabled", true)]⟩, ?_, rfl, rfl, ?_⟩
    · simp only [set_protocol, _url, hok', if_neg hs, setterNavigate_eq]
      simp [parsed]
    · simp [NavigationRequest.replacement, Flags.read, List.find?]

/-- C7, the witness named in the claim: `protocol = "ftp"` on a document at
`http://a.example/page` parses to scheme `ftp` and requests no navigation. -/
theorem set_protocol_ftp_on_http :
    (Sample.lib.basicURLParse ("ftp" ++ ":") Sample.pageState._relevantDocument._URL
        .schemeStart none).failure = false ∧
      (Sample.lib.basicURLParse ("ftp" ++ ":") Sample.pageState._relevantDocument._URL
        .schemeStart none).url.scheme = "ftp" ∧
      set_protocol Sample.lib Sample.pageState "ftp" = (.normal, Sample.pageState) :=
  ⟨by decide, by decide,
    (set_protocol_cases Sample.lib Sample.pageState "ftp").2.1 (by decide) (by decide)
      (by decide)⟩

/-- C8, as claimed, fails for the host setter: on `http://a.example/page`
(which passes the guard) the parse of the empty host reports failure, yet
the setter returns normally and requests a navigation. -/
theorem set_host_ignores_parse_failure :
    Sample.pageState._relevantDocument._URL.cannotBeABaseURL = false ∧
      (Sample.lib.basicURLParse "" Sample.pageState._relevantDocument._URL
        .host none).failure = true ∧
      set_host Sample.lib Sample.pageState "" =
        (.normal, { Sample.pageState with pipeline :=
          [⟨0, Sample.pageURL, [("replacement", false), ("exceptionsEnabled", true)]⟩] }) := by
  decide

/-- C8, amended: a failed parse makes the href and protocol setters throw a
`TypeError` with the state as before; the host, hostname, port, pathname,
search and hash setters, on a record that passes their guards, do not look
at the result of the parse: whether or not it reports failure they return
normally and request one navigation, to the copy as the parse left it, with
`replacement = false`. -/
theorem setters_on_parse_failure (lib : URLLib) (helpers : DocumentHelpers)
    (state : LocationState) (v : String) :
    let u := state._relevantDocument._URL
    let request (url : URLRecord) : NavigationRequest :=
      ⟨state._relevantDocument._defaultView, url,
        [("replacement", false), ("exceptionsEnabled", true)]⟩
    (lib.parseURL v (helpers.documentBaseURL state._relevantDocument) = none →
      ∃ message, set_href lib helpers state v = (.throw (.typeError message), state)) ∧
    ((lib.basicURLParse (v ++ ":") u .schemeStart none).failure = true →
      ∃ message, set_protocol lib state v = (.throw (.typeError message), state)) ∧
    (u.cannotBeABaseURL = false →
      set_host lib state v = (.normal, { state with pipeline := state.pipeline ++
        [request (lib.basicURLParse v u .host none).url] })) ∧
    (u.cannotBeABaseURL = false →
      set_hostname lib state v = (.normal, { state with pipeline := state.pipeline ++
        [request (lib.basicURLParse v u .hostname none).url] })) ∧
    (u.host ≠ none → u.cannotBeABaseURL = false → u.scheme ≠ "file" →
      set_port lib state v = (.normal, { state with pipeline := state.pipeline ++
        [request (lib.basicURLParse v u .port none).url] })) ∧
    (u.cannotBeABaseURL = false →
      set_pathname lib state v = (.normal, { state with pipeline := state.pipeline ++
        [request (lib.basicURLParse v { u with path := [] } .pathStart none).url] })) ∧
    (v ≠ "" →
      set_search lib state v = (.normal, { state with pipeline := state.pipeline ++
        [request (lib.basicURLParse (stripLeading '?' v) { u with query := some "" } .query
          (some state._relevantDocument.charset)).url] })) ∧
    (u.scheme ≠ "javascript" → v ≠ "" →
      set_hash lib state v = (.normal, { state with pipeline := state.pipeline ++
        [request (lib.basicURLParse (stripLeading '#' v) { u with fragment := some "" }
          .fragment none).url] })) := by
  intro u request
  refine ⟨fun h => ?_, fun h => ?_, fun h => ?_, fun h => ?_, fun h1 h2 h3 => ?_, fun h => ?_,
    fun h => ?_, fun h1 h2 => ?_⟩
  · exact ⟨"Could not parse \"" ++ v ++ "\" as a URL", by simp [set_href, h]⟩
  · have h' : (lib.basicURLParse (v ++ ":") state._relevantDocument._URL
        .schemeStart none).failure = true := h
    exact ⟨"Could not parse the URL after setting the procol to \"" ++ v ++ "\"",
      by simp [set_protocol, _url, h']⟩
  · have h' : state._relevantDocument._URL.cannotBeABaseURL = false := h
    simp [set_host, _url, h', setterNavigate_eq, request, u]
  · have h' : state._relevantDocument._URL.cannotBeABaseURL = false := h
    simp [set_hostname, _url, h', setterNavigate_eq, request, u]
  · have h1' : state._relevantDocument._URL.host ≠ none := h1
    have h2' : state._relevantDocument._URL.cannotBeABaseURL = false := h2
    have h3' : state._relevantDocument._URL.scheme ≠ "file" := h3
    simp [set_port, _url, h1', h2', h3', setterNavigate_eq, request, u]
  · have h' : state._relevantDocument._URL.cannotBeABaseURL = false := h
    simp [set_pathname, _url, h', setterNavigate_eq, request, u]
  · simp [set_search, _url, h, setterNavigate_eq, request, u]
  · have h1' : state._relevantDocument._URL.scheme ≠ "javascript" := h1
    simp [set_hash, _url, h1', h2, setterNavigate_eq, request, u]

/-- C8, amended, at a concrete input: the host setter on
`http://a.example/page` with the empty string, whose parse fails. -/
theorem setters_on_parse_failure_host_sample :
    (Sample.lib.basicURLParse "" Sample.pageURL .host none).failure = true ∧
      set_host Sample.lib Sample.pageState "" =
        (.normal, { Sample.pageState with pipeline := Sample.pageState.pipeline ++
          [⟨0, (Sample.lib.basicURLParse "" Sample.pageURL .host none).url,
            [("replacement", false), ("exceptionsEnabled", true)]⟩] }) :=
  ⟨by decide,
    (setters_on_parse_failure Sample.lib Sample.plainHelpers Sample.pageState "").2.2.1
      (by decide)⟩

/-- C9: the href setter parses `v` against the document base URL.  If the
parse yields `null` it throws a `TypeError` and the state (the document with
its URL, and the pipeline) is as before; otherwise it returns normally and
appends exactly one request, to the parsed record, with `replacement = false`. -/
theorem set_href_cases (lib : URLLib) (helpers : DocumentHelpers) (state : LocationState)
    (v : String) :
    (lib.parseURL v (helpers.documentBaseURL state._relevantDocument) = none →
      ∃ message, set_href lib helpers state v = (.throw (.typeError message), state)) ∧
    (∀ newURL, lib.parseURL v (helpers.documentBaseURL state._relevantDocument) = some newURL →
      ∃ request : NavigationRequest,
        set_href lib helpers state v =
          (.normal, { state with pipeline := state.pipeline ++ [request] }) ∧
        request.window = state._relevantDocument._defaultView ∧
        request.newURL = newURL ∧
        request.replacement = some false) := by
  refine ⟨fun h => ⟨"Could not parse \"" ++ v ++ "\" as a URL", by simp [set_href, h]⟩,
    fun newURL h => ?_⟩
  refine ⟨⟨state._relevantDocument._defaultView, newURL,
    [("replacement", false), ("exceptionsEnabled", true)]⟩, ?_, rfl, rfl, ?_⟩
  · simp [set_href, h, setterNavigate_eq]
  · simp [NavigationRequest.replacement, Flags.read, List.find?]

/-- C9 at concrete inputs: `href = "http://["` does not parse and throws with
the state as before. -/
theorem set_href_unparseable_sample :
    Sample.lib.parseURL "http://[" (Sample.plainHelpers.documentBaseURL
        Sample.pageState._relevantDocument) = none ∧
      ∃ message, set_href Sample.lib Sample.plainHelpers Sample.pageState "http://[" =
        (.throw (.typeError message), Sample.pageState) :=
  ⟨by decide,
    (set_href_cases Sample.lib Sample.plainHelpers Sample.pageState "http://[").1 (by decide)⟩

/-- C10, at the failing input: a document at `http://a.example/page` whose
document base URL is `http://b.example/dir/`.  `assign("http://[")` and
`replace("http://[")` do not resolve; each throws a `SyntaxError`
`DOMException` and leaves the state as it was, and the message contains the
offending string, but the URL it prints as "the base URL" is the
document's URL: the base URL used for the resolution does not occur in it. -/
theorem assign_message_prints_document_URL :
    parseURLToResultingURLRecord Sample.lib Sample.baseElementHelpers "http://["
        Sample.pageState._relevantDocument = none ∧
      assign Sample.lib Sample.baseElementHelpers Sample.pageState "http://[" =
        (.throw (.domException Sample.unresolvedMessage "SyntaxError"), Sample.pageState) ∧
      replace Sample.lib Sample.baseElementHelpers Sample.pageState "http://[" =
        (.throw (.domException Sample.unresolvedMessage "SyntaxError"), Sample.pageState) ∧
      Sample.lib.serializeURL
        (Sample.baseElementHelpers.documentBaseURL Sample.pageState._relevantDocument) =
          "http://b.example/dir/" ∧
      Sample.occursIn "http://[" Sample.unresolvedMessage = true ∧
      Sample.occursIn "http://a.example/page" Sample.unresolvedMessage = true ∧
      Sample.occursIn "http://b.example/dir/" Sample.unresolvedMessage = false := by
  decide

end LocationImpl

/-! ## Theorems: the traps -/

theorem findProperty_storeProperty_ne (k P : PropertyKey) (p : Property)
    (properties : List (PropertyKey × Property)) (h : k ≠ P) :
    findProperty k (storeProperty P p properties) = findProperty k properties := by
  induction properties with
  | nil => simp [storeProperty, findProperty, Ne.symm h]
  | cons entry rest ih =>
    obtain ⟨k', q⟩ := entry
    by_cases hk : k' = P
    · subst hk
      simp [storeProperty, findProperty, Ne.symm h]
    · by_cases hk' : k' = k
      · subst hk'
        simp [storeProperty, findProperty, hk]
      · simp [storeProperty, findProperty, hk, hk', ih]

theorem findProperty_removeProperty_ne (k P : PropertyKey)
    (properties : List (PropertyKey × Property)) (h : k ≠ P) :
    findProperty k (removeProperty P properties) = findProperty k properties := by
  induction properties with
  | nil => rfl
  | cons entry rest ih =>
    obtain ⟨k', q⟩ := entry
    simp only [removeProperty] at ih
    simp only [removeProperty, List.filter_cons]
    by_cases hk : k' = P
    · subst hk
      simpa [findProperty, Ne.symm h] using ih
    · by_cases hk' : k' = k
      · subst hk'
        simp [findProperty, hk]
      · simpa [findProperty, hk, hk'] using ih

theorem findProperty_isSome_of_mem (k : PropertyKey)
    (properties : List (PropertyKey × Property)) (h : k ∈ properties.map Prod.fst) :
    ∃ p, findProperty k properties = some p := by
  induction properties with
  | nil => simp at h
  | cons entry rest ih =>
    obtain ⟨k', q⟩ := entry
    by_cases hk : k' = k
    · exact ⟨q, by simp [findProperty, hk]⟩
    · have : k ∈ rest.map Prod.fst := by
        simp only [List.map_cons, List.mem_cons] at h
        rcases h with h | h
        · exact absurd h.symm hk
        · exact h
      obtain ⟨p, hp⟩ := ih this
      exact ⟨p, by simp [findProperty, hk, hp]⟩

theorem OrdinaryDefineOwnProperty_other (heap : Nat → JSObject) (O : Nat) (P : PropertyKey)
    (Desc : PropertyDescriptor) (O' : Nat) (k : PropertyKey) (h : k ≠ P) :
    OrdinaryGetOwnProperty (OrdinaryDefineOwnProperty heap O P Desc).2 O' k =
      OrdinaryGetOwnProperty heap O' k := by
  unfold OrdinaryDefineOwnProperty
  split
  · rfl
  · by_cases hO : O' = O
    · subst hO
      simp [OrdinaryGetOwnProperty, writeHeap, findProperty_storeProperty_ne _ _ _ _ h]
    · simp [OrdinaryGetOwnProperty, writeHeap, hO]

theorem OrdinaryDelete_other (heap : Nat → JSObject) (O : Nat) (P : PropertyKey)
    (O' : Nat) (k : PropertyKey) (h : k ≠ P) :
    OrdinaryGetOwnProperty (OrdinaryDelete heap O P).2 O' k =
      OrdinaryGetOwnProperty heap O' k := by
  unfold OrdinaryDelete
  split
  · rfl
  · split
    · by_cases hO : O' = O
      · subst hO
        simp [OrdinaryGetOwnProperty, writeHeap, findProperty_removeProperty_ne _ _ _ h]
      · simp [OrdinaryGetOwnProperty, writeHeap, hO]
    · rfl

theorem Untouched.refl (realm : Realm) : Untouched realm realm :=
  ⟨rfl, rfl, fun _ _ => rfl⟩

theorem Untouched.trans {a b c : Realm} (hab : Untouched a b) (hbc : Untouched b c) :
    Untouched a c := by
  obtain ⟨h1, h2, h3⟩ := hab
  obtain ⟨g1, g2, g3⟩ := hbc
  refine ⟨g1.trans h1, g2.trans h2, fun k hk => ?_⟩
  have := g3 k (h1 ▸ hk)
  rw [h2] at this
  rw [this, h3 k hk]

theorem Untouched.calls (realm : Realm) (calls : List Call) :
    Untouched realm { realm with calls := calls } :=
  ⟨rfl, rfl, fun _ _ => rfl⟩

theorem defineProperty_untouched (realm : Realm) (P : PropertyKey)
    (desc : PropertyDescriptor) :
    Untouched realm (proxyHandler.defineProperty realm realm.locationWrapper P desc).2 := by
  unfold proxyHandler.defineProperty
  split
  · exact Untouched.refl _
  · rename_i h
    unfold Reflect.defineProperty
    split
    · exact Untouched.refl _
    · refine ⟨rfl, rfl, fun k hk => ?_⟩
      have hne : k ≠ P := by
        rintro rfl
        exact h (by simpa using hk)
      exact OrdinaryDefineOwnProperty_other _ _ _ _ _ _ hne

theorem deleteProperty_untouched (realm : Realm) (P : PropertyKey) :
    Untouched realm (proxyHandler.deleteProperty realm realm.locationWrapper P).2 := by
  unfold proxyHandler.deleteProperty
  split
  · exact Untouched.refl _
  · rename_i h
    refine ⟨rfl, rfl, fun k hk => ?_⟩
    have hne : k ≠ P := by
      rintro rfl
      exact h (by simpa using hk)
    exact OrdinaryDelete_other _ _ _ _ _ hne

theorem definePropertyOf_proxy_untouched (realm : Realm) (P : PropertyKey)
    (desc : PropertyDescriptor) :
    Untouched realm (Reflect.definePropertyOf realm (.object .locationProxy) P desc).2 := by
  unfold Reflect.definePropertyOf
  simp only
  split
  · exact Untouched.refl _
  · exact defineProperty_untouched realm P desc

theorem setWithOwnDesc_proxy_untouched (realm : Realm) (P : PropertyKey) (V : Value)
    (ownDesc : PropertyDescriptor) :
    Untouched realm
      (proxyHandler.setWithOwnDesc realm P V (.object .locationProxy) ownDesc).2 := by
  unfold proxyHandler.setWithOwnDesc
  split
  · exact Untouched.refl _
  · split
    · exact Untouched.refl _
    · split
      · exact Untouched.refl _
      · split
        · exact Untouched.refl _
        · exact definePropertyOf_proxy_untouched _ _ _
    · exact definePropertyOf_proxy_untouched _ _ _

theorem set_trap_proxy_untouched (reflectSet : SetMethod)
    (hparent : ∀ realm parent P V,
      Untouched realm (reflectSet realm parent P V (.object .locationProxy)).2)
    (realm : Realm) (target : Nat) (P : PropertyKey) (V : Value) :
    Untouched realm (proxyHandler.set reflectSet realm target P V (.object .locationProxy)).2 := by
  unfold proxyHandler.set
  split
  · split
    · exact hparent _ _ _ _
    · exact setWithOwnDesc_proxy_untouched _ _ _ _
  · exact setWithOwnDesc_proxy_untouched _ _ _ _

theorem OrdinarySet_proxy_untouched (parentSet : SetMethod)
    (hparent : ∀ realm parent P V,
      Untouched realm (parentSet realm parent P V (.object .locationProxy)).2)
    (realm : Realm) (O : Nat) (P : PropertyKey) (V : Value) :
    Untouched realm (OrdinarySet parentSet realm O P V (.object .locationProxy)).2 := by
  have hdata : ∀ Desc, Untouched realm (defineOwnPropertyOf realm .locationProxy P Desc).2 :=
    fun Desc => defineProperty_untouched realm P Desc
  unfold OrdinarySet OrdinarySetWithOwnDescriptor
  simp only
  split
  · split
    · exact hparent _ _ _ _
    · simp only [Bool.not_true, Bool.false_eq_true, if_false]
      split
      · split
        · exact Untouched.refl _
        · split
          · exact Untouched.refl _
          · exact hdata _
      · exact hdata _
  · split
    · exact Untouched.refl _
    · split
      · split
        · exact Untouched.refl _
        · split
          · exact Untouched.refl _
          · exact hdata _
      · exact hdata _
  · split
    · exact Untouched.refl _
    · exact Untouched.calls _ _

theorem Reflect_set_proxy_untouched (depth : Nat) :
    ∀ (realm : Realm) (O : Ref) (P : PropertyKey) (V : Value),
      Untouched realm (Reflect.set depth realm O P V (.object .locationProxy)).2 := by
  induction depth with
  | zero =>
    intro realm O P V
    exact Untouched.refl _
  | succ depth ih =>
    intro realm O P V
    cases O with
    | ordinary address => exact OrdinarySet_proxy_untouched _ ih _ _ _ _
    | locationProxy => exact set_trap_proxy_untouched _ ih _ _ _ _

theorem TrapCall_run_untouched (depth : Nat) (realm : Realm) (call : TrapCall) :
    Untouched realm (call.run depth realm) := by
  cases call with
  | defineProperty P desc => exact defineProperty_untouched _ _ _
  | deleteProperty P => exact deleteProperty_untouched _ _
  | set P V => exact set_trap_proxy_untouched _ (Reflect_set_proxy_untouched depth) _ _ _ _
  | setPrototypeOf V => exact Untouched.refl _
  | preventExtensions => exact Untouched.refl _

theorem runTrapCalls_untouched (depth : Nat) (calls : List TrapCall) :
    ∀ realm : Realm, Untouched realm (runTrapCalls depth realm calls) := by
  induction calls with
  | nil => exact fun realm => Untouched.refl realm
  | cons call rest ih =>
    intro realm
    exact (TrapCall_run_untouched depth realm call).trans (ih _)

/-- C2, at the failing input: the wrapper has the own accessor `href` with a
setter.  The trap `set` returns `false` and invokes nothing, where
`OrdinarySet(target, P, V, receiver)` invokes the setter with the receiver and
`V` and returns `true`. -/
theorem set_trap_skips_own_setter :
    let V : Value := .string "https://b.example/next"
    let receiver : Value := .object .locationProxy
    OrdinaryGetOwnProperty Sample.realm.heap 0 Sample.href =
        some (.accessor (some Sample.hrefGetter) (some Sample.hrefSetter) true false) ∧
      (proxyHandler.set (Reflect.set 8) Sample.realm 0 Sample.href V receiver).1 =
        .value false ∧
      (proxyHandler.set (Reflect.set 8) Sample.realm 0 Sample.href V receiver).2.calls = [] ∧
      (OrdinarySet (Reflect.set 8) Sample.realm 0 Sample.href V receiver).1 = .value true ∧
      (OrdinarySet (Reflect.set 8) Sample.realm 0 Sample.href V receiver).2.calls =
        [⟨Sample.hrefSetter, receiver, [V]⟩] := by
  decide

/-- C3, as claimed, fails: `href` is in `_defaultProperties` and is
non-configurable on the target, and the trap returns its descriptor with
`configurable` still `false`. -/
theorem getOwnPropertyDescriptor_keeps_configurable :
    Sample.realm._defaultProperties.contains Sample.href = true ∧
      proxyHandler.getOwnPropertyDescriptor Sample.realm Sample.realm.locationWrapper
        Sample.href =
          some ⟨none, none, some (some Sample.hrefGetter), some (some Sample.hrefSetter),
            some true, some false⟩ := by
  decide

/-- C3, amended: for every key, in `_defaultProperties` or not, the trap
`getOwnPropertyDescriptor` returns the target's ordinary own descriptor
unchanged, `undefined` when the target has no such property; the
`configurable` field it reports is the target's own attribute. -/
theorem getOwnPropertyDescriptor_is_ordinary (realm : Realm) (target : Nat)
    (P : PropertyKey) :
    proxyHandler.getOwnPropertyDescriptor realm target P =
        (OrdinaryGetOwnProperty realm.heap target P).map Property.toDescriptor ∧
      (proxyHandler.getOwnPropertyDescriptor realm target P).map
          PropertyDescriptor.configurable =
        (OrdinaryGetOwnProperty realm.heap target P).map
          (fun p => some p.configurable) := by
  refine ⟨rfl, ?_⟩
  simp only [proxyHandler.getOwnPropertyDescriptor, Reflect.getOwnPropertyDescriptor,
    Option.map_map]
  congr 1
  funext p
  cases p <;> rfl

/-- C4: for a key of `_defaultProperties` the traps `defineProperty` and
`deleteProperty` return `false` and leave the realm, the target with it, as
it was, whatever the descriptor; for any other key they are
`Reflect.defineProperty` and `Reflect.deleteProperty` on the target, in result
and in effect. -/
theorem define_delete_gate (realm : Realm) (target : Nat) (P : PropertyKey)
    (desc : PropertyDescriptor) :
    (P ∈ realm._defaultProperties →
      proxyHandler.defineProperty realm target P desc = (.value false, realm) ∧
      proxyHandler.deleteProperty realm target P = (.value false, realm)) ∧
    (P ∉ realm._defaultProperties →
      proxyHandler.defineProperty realm target P desc =
        Reflect.defineProperty realm target P desc ∧
      proxyHandler.deleteProperty realm target P = Reflect.deleteProperty realm target P) := by
  refine ⟨fun h => ?_, fun h => ?_⟩
  · simp [proxyHandler.defineProperty, proxyHandler.deleteProperty, h]
  · simp [proxyHandler.defineProperty, proxyHandler.deleteProperty, h]

/-- C4 at concrete inputs: on the sample wrapper `href` cannot be redefined
or deleted, and a key outside `_defaultProperties` is defined as
`Reflect.defineProperty` defines it, after which the target holds it. -/
theorem define_delete_gate_sample :
    (proxyHandler.defineProperty Sample.realm 0 Sample.href
        (freshData (.number 1)) = (.value false, Sample.realm) ∧
      proxyHandler.deleteProperty Sample.realm 0 Sample.href = (.value false, Sample.realm)) ∧
    (proxyHandler.defineProperty Sample.realm 0 Sample.expando (freshData (.number 1)) =
        Reflect.defineProperty Sample.realm 0 Sample.expando (freshData (.number 1)) ∧
      proxyHandler.deleteProperty Sample.realm 0 Sample.expando =
        Reflect.deleteProperty Sample.realm 0 Sample.expando) ∧
    OrdinaryGetOwnProperty
        (proxyHandler.defineProperty Sample.realm 0 Sample.expando
          (freshData (.number 1))).2.heap 0 Sample.expando =
      some (.data (.number 1) true true true) :=
  ⟨(define_delete_gate Sample.realm 0 Sample.href (freshData (.number 1))).1 (by decide),
    (define_delete_gate Sample.realm 0 Sample.expando (freshData (.number 1))).2 (by decide),
    by decide⟩

/-- C5, the unforgeability invariant: after `init`, whose
`_defaultProperties` are the own keys of the target, and any finite sequence
of `defineProperty`, `deleteProperty`, `set` (receiver the proxy),
`setPrototypeOf` and `preventExtensions` trap calls, `_defaultProperties` is
what it was, and every key in it is still an own property of the target with
the property it had at `init`.  A setter that `set` finds on the prototype
chain is invoked and recorded; whatever its body does through the proxy is
again a sequence of trap calls. -/
theorem unforgeable_invariant (depth : Nat) (heap : Nat → JSObject) (locationWrapper : Nat)
    (calls : List Call) (trapCalls : List TrapCall) :
    let start := init heap locationWrapper calls
    let final := runTrapCalls depth start trapCalls
    start._defaultProperties = OrdinaryOwnPropertyKeys heap locationWrapper ∧
    final._defaultProperties = start._defaultProperties ∧
    final.locationWrapper = locationWrapper ∧
    ∀ k, k ∈ start._defaultProperties →
      ∃ p, OrdinaryGetOwnProperty heap locationWrapper k = some p ∧
        OrdinaryGetOwnProperty final.heap locationWrapper k = some p := by
  intro start final
  obtain ⟨h1, h2, h3⟩ := runTrapCalls_untouched depth trapCalls start
  refine ⟨rfl, h1, h2, fun k hk => ?_⟩
  obtain ⟨p, hp⟩ := findProperty_isSome_of_mem k (heap locationWrapper).properties hk
  refine ⟨p, hp, ?_⟩
  have := h3 k hk
  exact this.trans hp

/-- C5 at concrete inputs: on the sample wrapper, after attempts to delete,
redefine and assign `href` and `assign`, and after an expando was added,
`href` is the accessor it was. -/
theorem unforgeable_invariant_sample :
    let trapCalls : List TrapCall :=
      [.deleteProperty Sample.href, .defineProperty Sample.href (freshData (.number 1)),
        .set Sample.assignKey (.number 2), .set Sample.expando (.number 3),
        .setPrototypeOf none, .preventExtensions]
    Sample.href ∈ (init Sample.heap 0 [])._defaultProperties ∧
      (∃ p, OrdinaryGetOwnProperty Sample.heap 0 Sample.href = some p ∧
        OrdinaryGetOwnProperty (runTrapCalls 8 (init Sample.heap 0 []) trapCalls).heap 0
          Sample.href = some p) ∧
      OrdinaryGetOwnProperty (runTrapCalls 8 (init Sample.heap 0 []) trapCalls).heap 0
        Sample.expando = some (.data (.number 3) true true true) :=
  ⟨by decide,
    (unforgeable_invariant 8 Sample.heap 0 [] _).2.2.2 Sample.href (by decide),
    by decide⟩

/-- C6: the trap `setPrototypeOf` returns `true` exactly when `V` is the
target's current prototype and `false` otherwise, and the realm, the
target's prototype with it, is as before in both cases. -/
theorem setPrototypeOf_immutable (realm : Realm) (target : Nat) (V : Option Ref) :
    ((proxyHandler.setPrototypeOf realm target V).1 = .value true ↔
        V = (realm.heap target).prototype) ∧
      ((proxyHandler.setPrototypeOf realm target V).1 = .value false ↔
        V ≠ (realm.heap target).prototype) ∧
      (proxyHandler.setPrototypeOf realm target V).2 = realm ∧
      (((proxyHandler.setPrototypeOf realm target V).2).heap target).prototype =
        (realm.heap target).prototype := by
  simp [proxyHandler.setPrototypeOf, proxyHandler.getPrototypeOf, Reflect.getPrototypeOf]

/-! ## Theorems: assign, replace and the remaining setters -/

namespace LocationImpl

theorem locationObjectNavigate_eq (state : LocationState) (url : URLRecord)
    (replacement : Bool) :
    _locationObjectNavigate state url replacement =
      { state with pipeline := state.pipeline ++
          [⟨state._relevantDocument._defaultView, url,
            [("replacement", replacement), ("exceptionsEnabled", true)]⟩] } := rfl

theorem replacement_of_flags (window : Nat) (url : URLRecord) (replacement : Bool) :
    NavigationRequest.replacement
      ⟨window, url, [("replacement", replacement), ("exceptionsEnabled", true)]⟩ =
        some replacement := by
  simp [NavigationRequest.replacement, Flags.read, List.find?]

theorem stripLeading_cons (c : Char) (rest : List Char) :
    stripLeading c (String.mk (c :: rest)) = String.mk rest := by
  simp [stripLeading]

theorem stripLeading_of_head_ne (c : Char) (v : String) (h : v.data.head? ≠ some c) :
    stripLeading c v = v := by
  unfold stripLeading
  cases hv : v.data with
  | nil => rfl
  | cons first rest =>
    have : first ≠ c := by
      intro heq
      apply h
      simp [hv, heq]
    simp [this]

/-- C11: when `v` resolves against the document to a record `p`, `assign(v)`
returns normally and appends exactly one request, to `p`, with
`replacement = false`; `replace(v)` does the same with `replacement = true`;
the two requests have the same window, record and `exceptionsEnabled` flag. -/
theorem assign_replace_requests (lib : URLLib) (helpers : DocumentHelpers)
    (state : LocationState) (v : String) (p : URLRecord)
    (h : parseURLToResultingURLRecord lib helpers v state._relevantDocument = some p) :
    assign lib helpers state v =
        (.normal, { state with pipeline := state.pipeline ++
          [⟨state._relevantDocument._defaultView, p,
            [("replacement", false), ("exceptionsEnabled", true)]⟩] }) ∧
      replace lib helpers state v =
        (.normal, { state with pipeline := state.pipeline ++
          [⟨state._relevantDocument._defaultView, p,
            [("replacement", true), ("exceptionsEnabled", true)]⟩] }) ∧
      NavigationRequest.replacement ⟨state._relevantDocument._defaultView, p,
        [("replacement", false), ("exceptionsEnabled", true)]⟩ = some false ∧
      NavigationRequest.replacement ⟨state._relevantDocument._defaultView, p,
        [("replacement", true), ("exceptionsEnabled", true)]⟩ = some true := by
  refine ⟨?_, ?_, replacement_of_flags _ _ _, replacement_of_flags _ _ _⟩
  · simp [assign, h, locationObjectNavigate_eq]
  · simp [replace, h, locationObjectNavigate_eq]

/-- C11 at concrete inputs: on `http://a.example/page`, the string
`https://b.example/next` resolves, and `assign` and `replace` each request
one navigation to it. -/
theorem assign_replace_requests_sample :
    parseURLToResultingURLRecord Sample.lib Sample.plainHelpers "https://b.example/next"
        Sample.pageState._relevantDocument = some Sample.nextURL ∧
      assign Sample.lib Sample.plainHelpers Sample.pageState "https://b.example/next" =
        (.normal, { Sample.pageState with pipeline :=
          [⟨0, Sample.nextURL, [("replacement", false), ("exceptionsEnabled", true)]⟩] }) ∧
      replace Sample.lib Sample.plainHelpers Sample.pageState "https://b.example/next" =
        (.normal, { Sample.pageState with pipeline :=
          [⟨0, Sample.nextURL, [("replacement", true), ("exceptionsEnabled", true)]⟩] }) :=
  ⟨by decide,
    (assign_replace_requests Sample.lib Sample.plainHelpers Sample.pageState
      "https://b.example/next" Sample.nextURL (by decide)).1,
    (assign_replace_requests Sample.lib Sample.plainHelpers Sample.pageState
      "https://b.example/next" Sample.nextURL (by decide)).2.1⟩

/-- C12: the port setter always returns normally.  When the current record
has a host, can be a base URL and is not a `file` URL, it appends one request
(to the copy as the port-state parse left it); when any of the three tests
fails it leaves the state as it was, whatever `v` is.  So the pipeline grows
exactly when the three tests pass. -/
theorem set_port_guards (lib : URLLib) (state : LocationState) (v : String) :
    let u := state._relevantDocument._URL
    (set_port lib state v).1 = .normal ∧
    (u.host ≠ none ∧ u.cannotBeABaseURL = false ∧ u.scheme ≠ "file" →
      set_port lib state v = (.normal, { state with pipeline := state.pipeline ++
        [⟨state._relevantDocument._defaultView, (lib.basicURLParse v u .port none).url,
          [("replacement", false), ("exceptionsEnabled", true)]⟩] })) ∧
    (u.host = none ∨ u.cannotBeABaseURL = true ∨ u.scheme = "file" →
      set_port lib state v = (.normal, state)) ∧
    ((set_port lib state v).2.pipeline ≠ state.pipeline ↔
      u.host ≠ none ∧ u.cannotBeABaseURL = false ∧ u.scheme ≠ "file") := by
  intro u
  by_cases hg : state._relevantDocument._URL.host = none
      ∨ state._relevantDocument._URL.cannotBeABaseURL = true
      ∨ state._relevantDocument._URL.scheme = "file"
  · have hrun : set_port lib state v = (.normal, state) := by
      simp only [set_port, _url, if_pos hg]
    refine ⟨by rw [hrun], fun hp => ?_, fun _ => hrun, ?_⟩
    · exfalso
      rcases hg with h | h | h
      · exact hp.1 h
      · rw [hp.2.1] at h
        exact Bool.noConfusion h
      · exact hp.2.2 h
    · rw [hrun]
      constructor
      · intro h
        exact absurd rfl h
      · intro hp
        exfalso
        rcases hg with h | h | h
        · exact hp.1 h
        · rw [hp.2.1] at h
          exact Bool.noConfusion h
        · exact hp.2.2 h
  · have hrun : set_port lib state v = (.normal, { state with pipeline := state.pipeline ++
        [⟨state._relevantDocument._defaultView,
          (lib.basicURLParse v state._relevantDocument._URL .port none).url,
          [("replacement", false), ("exceptionsEnabled", true)]⟩] }) := by
      simp only [set_port, _url, if_neg hg, setterNavigate_eq]
    have hpass : state._relevantDocument._URL.host ≠ none
        ∧ state._relevantDocument._URL.cannotBeABaseURL = false
        ∧ state._relevantDocument._URL.scheme ≠ "file" := by
      refine ⟨fun h => hg (Or.inl h), ?_, fun h => hg (Or.inr (Or.inr h))⟩
      cases hc : state._relevantDocument._URL.cannotBeABaseURL
      · rfl
      · exact absurd (Or.inr (Or.inl hc)) hg
    refine ⟨by rw [hrun], fun _ => hrun, fun h => absurd h hg, ?_⟩
    rw [hrun]
    constructor
    · intro _
      exact hpass
    · intro _
      simp

/-- C12 at concrete inputs: on `file:///tmp/page` the port setter requests
nothing; on `http://a.example/page` it requests one navigation. -/
theorem set_port_guards_sample :
    set_port Sample.lib Sample.fileState "8080" = (.normal, Sample.fileState) ∧
      set_port Sample.lib Sample.pageState "8080" =
        (.normal, { Sample.pageState with pipeline :=
          [⟨0, { Sample.pageURL with port := some 8080 },
            [("replacement", false), ("exceptionsEnabled", true)]⟩] }) :=
  ⟨(set_port_guards Sample.lib Sample.fileState "8080").2.2.1 (by decide), by decide⟩

/-- C13: on a record that cannot be a base URL, the pathname, host and
hostname setters return normally and leave the state as it was: nothing is
requested and the document's URL record is the one before the call. -/
theorem cannotBeABase_setters_noop (lib : URLLib) (state : LocationState) (v : String)
    (h : state._relevantDocument._URL.cannotBeABaseURL = true) :
    set_pathname lib state v = (.normal, state) ∧
      set_host lib state v = (.normal, state) ∧
      set_hostname lib state v = (.normal, state) ∧
      (set_pathname lib state v).2._relevantDocument._URL = state._relevantDocument._URL ∧
      (set_host lib state v).2._relevantDocument._URL = state._relevantDocument._URL ∧
      (set_hostname lib state v).2._relevantDocument._URL = state._relevantDocument._URL ∧
      (set_pathname lib state v).2.pipeline = state.pipeline ∧
      (set_host lib state v).2.pipeline = state.pipeline ∧
      (set_hostname lib state v).2.pipeline = state.pipeline := by
  have h1 : set_pathname lib state v = (.normal, state) := by simp [set_pathname, _url, h]
  have h2 : set_host lib state v = (.normal, state) := by simp [set_host, _url, h]
  have h3 : set_hostname lib state v = (.normal, state) := by simp [set_hostname, _url, h]
  simp [h1, h2, h3]

/-- C13 at concrete inputs: the three setters on `mailto:someone@a.example`. -/
theorem cannotBeABase_setters_noop_sample :
    Sample.mailtoState._relevantDocument._URL.cannotBeABaseURL = true ∧
      set_pathname Sample.lib Sample.mailtoState "/x" = (.normal, Sample.mailtoState) ∧
      set_host Sample.lib Sample.mailtoState "b.example" = (.normal, Sample.mailtoState) ∧
      set_hostname Sample.lib Sample.mailtoState "b.example" =
        (.normal, Sample.mailtoState) :=
  ⟨by decide,
    (cannotBeABase_setters_noop Sample.lib Sample.mailtoState "/x" (by decide)).1,
    (cannotBeABase_setters_noop Sample.lib Sample.mailtoState "b.example" (by decide)).2.1,
    (cannotBeABase_setters_noop Sample.lib Sample.mailtoState "b.example" (by decide)).2.2.1⟩

theorem settle_append_one (state : LocationState) (request : NavigationRequest) :
    settle state { state with pipeline := state.pipeline ++ [request] } =
      { _relevantDocument := { state._relevantDocument with _URL := request.newURL }
        pipeline := state.pipeline ++ [request] } := by
  simp [settle, applyNavigation]

theorem settle_self (state : LocationState) : settle state state = state := by
  simp [settle]

theorem set_hash_javascript (lib : URLLib) (state : LocationState) (v : String)
    (h : state._relevantDocument._URL.scheme = "javascript") :
    set_hash lib state v = (.normal, state) := by
  simp [set_hash, _url, h]

theorem set_hash_empty (lib : URLLib) (state : LocationState)
    (h : state._relevantDocument._URL.scheme ≠ "javascript") :
    set_hash lib state "" = (.normal, { state with pipeline := state.pipeline ++
      [⟨state._relevantDocument._defaultView,
        { state._relevantDocument._URL with fragment := none },
        [("replacement", false), ("exceptionsEnabled", true)]⟩] }) := by
  simp [set_hash, _url, h, setterNavigate_eq]

theorem set_hash_nonempty (lib : URLLib) (state : LocationState) (v : String)
    (h : state._relevantDocument._URL.scheme ≠ "javascript") (hv : v ≠ "") :
    set_hash lib state v = (.normal, { state with pipeline := state.pipeline ++
      [⟨state._relevantDocument._defaultView,
        (lib.basicURLParse (stripLeading '#' v)
          { state._relevantDocument._URL with fragment := some "" } .fragment none).url,
        [("replacement", false), ("exceptionsEnabled", true)]⟩] }) := by
  simp [set_hash, _url, h, hv, setterNavigate_eq]

/-- C14, as claimed, fails on a `javascript:` URL: on `javascript:void(0)#x`
setting `hash` to the empty string requests nothing, and `hash` then still
reads `#x`. -/
theorem set_hash_empty_on_javascript :
    set_hash Sample.lib Sample.scriptState "" = (.normal, Sample.scriptState) ∧
      get_hash (settle Sample.scriptState (set_hash Sample.lib Sample.scriptState "").2) =
        "#x" := by
  decide

/-- C14, amended: when the scheme of the current record is not `javascript`,
setting `hash` to the empty string and then reading `hash`, with the
requested navigation applied as the document's new URL, yields the empty
string, and the record read back is the current record with a null fragment.
When the scheme is `javascript` the setter requests nothing and `hash` reads
what it read before. -/
theorem set_hash_empty_then_get (lib : URLLib) (state : LocationState) :
    (state._relevantDocument._URL.scheme ≠ "javascript" →
      get_hash (settle state (set_hash lib state "").2) = "" ∧
      (settle state (set_hash lib state "").2)._relevantDocument._URL =
        { state._relevantDocument._URL with fragment := none } ∧
      (settle state (set_hash lib state "").2)._relevantDocument._URL.fragment = none) ∧
    (state._relevantDocument._URL.scheme = "javascript" →
      set_hash lib state "" = (.normal, state) ∧
      get_hash (settle state (set_hash lib state "").2) = get_hash state) := by
  refine ⟨fun h => ?_, fun h => ?_⟩
  · rw [set_hash_empty lib state h]
    simp only [settle_append_one]
    simp [get_hash, _url]
  · rw [set_hash_javascript lib state "" h]
    exact ⟨rfl, by rw [settle_self]⟩

/-- C14, amended, at concrete inputs: on `https://a.example/path?x=1#frag`
setting `hash` to the empty string leads to a document whose `hash` is empty
and whose `href`, as the stand-in serializer writes it, has no `#`. -/
theorem set_hash_empty_then_get_sample :
    get_hash (settle Sample.searchState (set_hash Sample.lib Sample.searchState "").2) = "" ∧
      get_href Sample.lib
          (settle Sample.searchState (set_hash Sample.lib Sample.searchState "").2) =
        "https://a.example/path?x=1" ∧
      Sample.occursIn "#" (get_href Sample.lib
          (settle Sample.searchState (set_hash Sample.lib Sample.searchState "").2)) =
        false :=
  ⟨((set_hash_empty_then_get Sample.lib Sample.searchState).1 (by decide)).1,
    by decide, by decide⟩

/-- C15: the hash setter returns normally in every case.  On a `javascript:`
record it leaves the state as it was.  On any other record it appends exactly
one request, with `replacement = false`: to the current record with a null
fragment when `v` is empty, and otherwise to the result of the fragment-state
parse of `v` without one leading `#` into a copy whose fragment was first set
to the empty string. -/
theorem set_hash_cases (lib : URLLib) (state : LocationState) (v : String) :
    (set_hash lib state v).1 = .normal ∧
    (state._relevantDocument._URL.scheme = "javascript" →
      set_hash lib state v = (.normal, state)) ∧
    (state._relevantDocument._URL.scheme ≠ "javascript" →
      ∃ request : NavigationRequest,
        set_hash lib state v =
          (.normal, { state with pipeline := state.pipeline ++ [request] }) ∧
        request.window = state._relevantDocument._defaultView ∧
        request.replacement = some false ∧
        (v = "" →
          request.newURL = { state._relevantDocument._URL with fragment := none }) ∧
        (v ≠ "" →
          request.newURL = (lib.basicURLParse (stripLeading '#' v)
            { state._relevantDocument._URL with fragment := some "" } .fragment none).url)) ∧
    (∀ rest, stripLeading '#' (String.mk ('#' :: rest)) = String.mk rest) ∧
    (v.data.head? ≠ some '#' → stripLeading '#' v = v) := by
  refine ⟨?_, fun h => set_hash_javascript lib state v h, fun h => ?_,
    fun rest => stripLeading_cons '#' rest, stripLeading_of_head_ne '#' v⟩
  · by_cases h : state._relevantDocument._URL.scheme = "javascript"
    · rw [set_hash_javascript lib state v h]
    · by_cases hv : v = ""
      · subst hv
        rw [set_hash_empty lib state h]
      · rw [set_hash_nonempty lib state v h hv]
  · by_cases hv : v = ""
    · subst hv
      exact ⟨_, set_hash_empty lib state h, rfl, replacement_of_flags _ _ _,
        fun _ => rfl, fun hne => absurd rfl hne⟩
    · exact ⟨_, set_hash_nonempty lib state v h hv, rfl, replacement_of_flags _ _ _,
        fun he => absurd he hv, fun _ => rfl⟩

/-- C15 at concrete inputs: `hash = "#top"` on `http://a.example/page`
requests one navigation, to the record with fragment `top`; on
`javascript:void(0)#x` it requests nothing. -/
theorem set_hash_cases_sample :
    set_hash Sample.lib Sample.scriptState "#top" = (.normal, Sample.scriptState) ∧
      set_hash Sample.lib Sample.pageState "#top" =
        (.normal, { Sample.pageState with pipeline :=
          [⟨0, { Sample.pageURL with fragment := some "top" },
            [("replacement", false), ("exceptionsEnabled", true)]⟩] }) :=
  ⟨(set_hash_cases Sample.lib Sample.scriptState "#top").2.1 (by decide), by decide⟩

theorem set_search_empty (lib : URLLib) (state : LocationState) :
    set_search lib state "" = (.normal, { state with pipeline := state.pipeline ++
      [⟨state._relevantDocument._defaultView,
        { state._relevantDocument._URL with query := none },
        [("replacement", false), ("exceptionsEnabled", true)]⟩] }) := by
  simp [set_search, _url, setterNavigate_eq]

theorem set_search_nonempty (lib : URLLib) (state : LocationState) (v : String)
    (hv : v ≠ "") :
    set_search lib state v = (.normal, { state with pipeline := state.pipeline ++
      [⟨state._relevantDocument._defaultView,
        (lib.basicURLParse (stripLeading '?' v)
          { state._relevantDocument._URL with query := some "" } .query
          (some state._relevantDocument.charset)).url,
        [("replacement", false), ("exceptionsEnabled", true)]⟩] }) := by
  simp [set_search, _url, hv, setterNavigate_eq]

theorem question_append_ne_empty (s : String) : "?" ++ s ≠ "" := by
  intro h
  have hlen := congrArg String.length h
  rw [String.length_append] at hlen
  have h1 : "?".length = 1 := by decide
  have h0 : "".length = 0 := by decide
  omega

theorem stripLeading_question_append (s : String) : stripLeading '?' ("?" ++ s) = s := by
  have h : "?" ++ s = String.mk ('?' :: s.data) := by
    apply String.ext
    simp
  rw [h, stripLeading_cons]

/-- C16: the search setter returns normally and appends exactly one request,
with `replacement = false`: to the current record with a null query when `v`
is empty, and otherwise to the result of the query-state parse, with the
document's `charset` as encoding override, of `v` without one leading `?`
into a copy whose query was first set to the empty string.  Hence a non-empty
`s` that does not start with `?` and `"?" + s` request the same navigation. -/
theorem set_search_cases (lib : URLLib) (state : LocationState) (v : String) :
    (∃ request : NavigationRequest,
      set_search lib state v =
        (.normal, { state with pipeline := state.pipeline ++ [request] }) ∧
      request.window = state._relevantDocument._defaultView ∧
      request.replacement = some false ∧
      (v = "" → request.newURL = { state._relevantDocument._URL with query := none }) ∧
      (v ≠ "" →
        request.newURL = (lib.basicURLParse (stripLeading '?' v)
          { state._relevantDocument._URL with query := some "" } .query
          (some state._relevantDocument.charset)).url)) ∧
    (∀ rest, stripLeading '?' (String.mk ('?' :: rest)) = String.mk rest) ∧
    (v.data.head? ≠ some '?' → stripLeading '?' v = v) ∧
    (v ≠ "" → v.data.head? ≠ some '?' →
      set_search lib state ("?" ++ v) = set_search lib state v) := by
  refine ⟨?_, fun rest => stripLeading_cons '?' rest, stripLeading_of_head_ne '?' v,
    fun hv hhead => ?_⟩
  · by_cases hv : v = ""
    · subst hv
      exact ⟨_, set_search_empty lib state, rfl, replacement_of_flags _ _ _,
        fun _ => rfl, fun hne => absurd rfl hne⟩
    · exact ⟨_, set_search_nonempty lib state v hv, rfl, replacement_of_flags _ _ _,
        fun he => absurd he hv, fun _ => rfl⟩
  · rw [set_search_nonempty lib state _ (question_append_ne_empty v),
      set_search_nonempty lib state v hv, stripLeading_question_append,
      stripLeading_of_head_ne '?' v hhead]

/-- C16, the witness named in the claim: at `https://a.example/path?x=1#frag`,
`search = "y=2"` requests one navigation, with `replacement = false`, to the
record that serializes as `https://a.example/path?y=2#frag`, and
`search = "?y=2"` requests the same. -/
theorem set_search_sample :
    set_search Sample.lib Sample.searchState "y=2" =
        (.normal, { Sample.searchState with pipeline :=
          [⟨0, { Sample.searchURL with query := some "y=2" },
            [("replacement", false), ("exceptionsEnabled", true)]⟩] }) ∧
      Sample.lib.serializeURL { Sample.searchURL with query := some "y=2" } =
        "https://a.example/path?y=2#frag" ∧
      set_search Sample.lib Sample.searchState ("?" ++ "y=2") =
        set_search Sample.lib Sample.searchState "y=2" :=
  ⟨by decide, by decide,
    (set_search_cases Sample.lib Sample.searchState "y=2").2.2.2 (by decide) (by decide)⟩

end LocationImpl

/-! ## Theorems: sequences of calls and the host getters -/

theorem LocationCall.run_shape (lib : URLLib) (helpers : DocumentHelpers)
    (state : LocationState) (call : LocationCall) :
    call.run lib helpers state = ((call.run lib helpers state).1, state) ∨
      ∃ request : NavigationRequest, call.run lib helpers state =
        (.normal, { state with pipeline := state.pipeline ++ [request] }) := by
  cases call with
  | href v =>
    simp only [LocationCall.run, LocationImpl.set_href]
    split
    · exact Or.inl rfl
    · exact Or.inr ⟨_, rfl⟩
  | protocol v =>
    simp only [LocationCall.run, LocationImpl.set_protocol]
    split
    · exact Or.inl rfl
    · split
      · exact Or.inl rfl
      · exact Or.inr ⟨_, rfl⟩
  | host v =>
    simp only [LocationCall.run, LocationImpl.set_host]
    split
    · exact Or.inl rfl
    · exact Or.inr ⟨_, rfl⟩
  | hostname v =>
    simp only [LocationCall.run, LocationImpl.set_hostname]
    split
    · exact Or.inl rfl
    · exact Or.inr ⟨_, rfl⟩
  | port v =>
    simp only [LocationCall.run, LocationImpl.set_port]
    split
    · exact Or.inl rfl
    · exact Or.inr ⟨_, rfl⟩
  | pathname v =>
    simp only [LocationCall.run, LocationImpl.set_pathname]
    split
    · exact Or.inl rfl
    · exact Or.inr ⟨_, rfl⟩
  | search v => exact Or.inr ⟨_, rfl⟩
  | hash v =>
    simp only [LocationCall.run, LocationImpl.set_hash]
    split
    · exact Or.inl rfl
    · exact Or.inr ⟨_, rfl⟩
  | assign url =>
    simp only [LocationCall.run, LocationImpl.assign]
    split
    · exact Or.inl rfl
    · exact Or.inr ⟨_, rfl⟩
  | replace url =>
    simp only [LocationCall.run, LocationImpl.replace]
    split
    · exact Or.inl rfl
    · exact Or.inr ⟨_, rfl⟩
  | reload => exact Or.inr ⟨_, rfl⟩

theorem LocationCall.run_of_guard (lib : URLLib) (helpers : DocumentHelpers)
    (state : LocationState) (call : LocationCall) (h : call.hitsGuard lib state = true) :
    call.run lib helpers state = (.normal, state) := by
  cases call with
  | href v => simp [LocationCall.hitsGuard] at h
  | protocol v =>
    simp only [LocationCall.hitsGuard, Bool.and_eq_true, Bool.not_eq_true', decide_eq_true_eq]
      at h
    simp [LocationCall.run, LocationImpl.set_protocol, LocationImpl._url, h.1, h.2]
  | host v =>
    simp only [LocationCall.hitsGuard] at h
    simp [LocationCall.run, LocationImpl.set_host, LocationImpl._url, h]
  | hostname v =>
    simp only [LocationCall.hitsGuard] at h
    simp [LocationCall.run, LocationImpl.set_hostname, LocationImpl._url, h]
  | port v =>
    simp only [LocationCall.hitsGuard, decide_eq_true_eq] at h
    simp only [LocationCall.run, LocationImpl.set_port, LocationImpl._url, if_pos h]
  | pathname v =>
    simp only [LocationCall.hitsGuard] at h
    simp [LocationCall.run, LocationImpl.set_pathname, LocationImpl._url, h]
  | search v => simp [LocationCall.hitsGuard] at h
  | hash v =>
    simp only [LocationCall.hitsGuard, decide_eq_true_eq] at h
    simp [LocationCall.run, LocationImpl.set_hash, LocationImpl._url, h]
  | assign url => simp [LocationCall.hitsGuard] at h
  | replace url => simp [LocationCall.hitsGuard] at h
  | reload => simp [LocationCall.hitsGuard] at h

theorem LocationCall.run_pipeline (lib : URLLib) (helpers : DocumentHelpers)
    (state : LocationState) (call : LocationCall) :
    (call.run lib helpers state).2.pipeline =
        state.pipeline ++ call.requests lib helpers state ∧
      (call.run lib helpers state).2._relevantDocument = state._relevantDocument ∧
      (call.requests lib helpers state).length ≤ 1 ∧
      ((call.run lib helpers state).1 ≠ .normal → call.requests lib helpers state = []) := by
  unfold LocationCall.requests
  rcases LocationCall.run_shape lib helpers state call with h | ⟨request, h⟩
  · have h2 : (call.run lib helpers state).2 = state := by rw [h]
    rw [h2]
    simp
  · rw [h]
    simp

/-- C18: every call of a setter or method extends the pipeline by the
requests of that call, which are at most one; a call that throws, or that
meets one of the conditions under which its setter returns early, appends
none (and in the latter case returns normally).  After any finite sequence of
calls, whatever happens to the document between them, the pipeline is the
pipeline before followed by the requests of the calls in the order in which
the calls were invoked, at most one for each call. -/
theorem requests_in_call_order (lib : URLLib) (helpers : DocumentHelpers)
    (reaction : LocationState → Document) (state : LocationState)
    (calls : List LocationCall) :
    (∀ (s : LocationState) (call : LocationCall),
      (call.run lib helpers s).2.pipeline = s.pipeline ++ call.requests lib helpers s ∧
      (call.requests lib helpers s).length ≤ 1 ∧
      ((call.run lib helpers s).1 ≠ .normal → call.requests lib helpers s = []) ∧
      (call.hitsGuard lib s = true →
        call.requests lib helpers s = [] ∧ (call.run lib helpers s).1 = .normal)) ∧
    (runCalls lib helpers reaction state calls).pipeline =
      state.pipeline ++ requestLog lib helpers reaction state calls ∧
    (requestLog lib helpers reaction state calls).length ≤ calls.length := by
  refine ⟨fun s call => ?_, ?_, ?_⟩
  · obtain ⟨h1, _, h3, h4⟩ := LocationCall.run_pipeline lib helpers s call
    refine ⟨h1, h3, h4, fun hg => ?_⟩
    have hrun := LocationCall.run_of_guard lib helpers s call hg
    refine ⟨?_, by rw [hrun]⟩
    simp [LocationCall.requests, hrun]
  · induction calls generalizing state with
    | nil => simp [runCalls, requestLog]
    | cons call rest ih =>
      simp only [runCalls, requestLog]
      rw [ih]
      simp only [nextState]
      rw [(LocationCall.run_pipeline lib helpers state call).1, List.append_assoc]
  · induction calls generalizing state with
    | nil => simp [requestLog]
    | cons call rest ih =>
      simp only [requestLog, List.length_append, List.length_cons]
      have h1 := (LocationCall.run_pipeline lib helpers state call).2.2.1
      have h2 := ih (nextState reaction (call.run lib helpers state).2)
      omega

/-- C18 at concrete inputs: on `http://a.example/page`, a failing `href`,
a `hash`, a `protocol` that is refused, a `replace` and a `reload` leave
three requests, in the order `hash`, `replace`, `reload`. -/
theorem requests_in_call_order_sample :
    (runCalls Sample.lib Sample.plainHelpers (fun after => after._relevantDocument)
        Sample.pageState
        [.href "http://[", .hash "top", .protocol "ftp", .replace "https://b.example/next",
          .reload]).pipeline =
      Sample.pageState.pipeline ++
        requestLog Sample.lib Sample.plainHelpers (fun after => after._relevantDocument)
          Sample.pageState
          [.href "http://[", .hash "top", .protocol "ftp", .replace "https://b.example/next",
            .reload] ∧
    requestLog Sample.lib Sample.plainHelpers (fun after => after._relevantDocument)
        Sample.pageState
        [.href "http://[", .hash "top", .protocol "ftp", .replace "https://b.example/next",
          .reload] =
      [⟨0, { Sample.pageURL with fragment := some "top" },
          [("replacement", false), ("exceptionsEnabled", true)]⟩,
        ⟨0, Sample.nextURL, [("replacement", true), ("exceptionsEnabled", true)]⟩,
        ⟨0, Sample.pageURL,
          [("replace", true), ("reloadTriggered", true), ("exceptionsEnabled", true)]⟩] :=
  ⟨(requests_in_call_order Sample.lib Sample.plainHelpers (fun after => after._relevantDocument)
      Sample.pageState _).2.1,
    by decide⟩

namespace LocationImpl

/-- C19: the host getter returns the empty string when the host is null, the
serialized host when the port is null, and the serialized host, `:` and the
serialized port otherwise; hostname is empty exactly when the host is null.
Given that the integer serializer never writes the empty string for the
port at hand, host is hostname followed by nothing when the port getter
returns the empty string and by `:` and the port getter's value otherwise. -/
theorem get_host_cases (lib : URLLib) (state : LocationState)
    (hport : ∀ p, state._relevantDocument._URL.port = some p → lib.serializeInteger p ≠ "") :
    (state._relevantDocument._URL.host = none →
      get_host lib state = "" ∧ get_hostname lib state = "") ∧
    (∀ h, state._relevantDocument._URL.host = some h →
      state._relevantDocument._URL.port = none →
      get_host lib state = lib.serializeHost h) ∧
    (∀ h p, state._relevantDocument._URL.host = some h →
      state._relevantDocument._URL.port = some p →
      get_host lib state = lib.serializeHost h ++ ":" ++ lib.serializeInteger p) ∧
    (state._relevantDocument._URL.host ≠ none →
      get_host lib state = get_hostname lib state ++
        (if get_port lib state = "" then "" else ":" ++ get_port lib state)) := by
  refine ⟨fun h => ?_, fun h hh hp => ?_, fun h p hh hp => ?_, fun hne => ?_⟩
  · simp [get_host, get_hostname, _url, h]
  · simp [get_host, _url, hh, hp]
  · simp [get_host, _url, hh, hp]
  · cases hh : state._relevantDocument._URL.host with
    | none => exact absurd hh hne
    | some h =>
      cases hp : state._relevantDocument._URL.port with
      | none => simp [get_host, get_hostname, get_port, _url, hh, hp]
      | some p =>
        have := hport p hp
        simp [get_host, get_hostname, get_port, _url, hh, hp, this, String.append_assoc]

/-- C19 at concrete inputs: on `http://a.example:8080/page` the host is
`a.example:8080`, the hostname `a.example` and the port `8080`. -/
theorem get_host_cases_sample :
    get_host Sample.lib Sample.portState = "a.example:8080" ∧
      get_hostname Sample.lib Sample.portState = "a.example" ∧
      get_port Sample.lib Sample.portState = "8080" ∧
      get_host Sample.lib Sample.portState = get_hostname Sample.lib Sample.portState ++
        (if get_port Sample.lib Sample.portState = "" then ""
          else ":" ++ get_port Sample.lib Sample.portState) :=
  ⟨by decide, by decide, by decide,
    (get_host_cases Sample.lib Sample.portState (by
      intro p hp
      have h8080 : p = 8080 := by
        have : (some 8080 : Option Nat) = some p := hp
        exact (Option.some.inj this).symm
      subst h8080
      decide)).2.2.2 (by decide)⟩

end LocationImpl

/-! ## Theorems: the caller of a trap, and the trap `get` -/

/-- C17, as claimed, fails: for a caller at `https://evil.example`, on a
location whose document is at `http://a.example/page`, `defineProperty` of a
key outside `_defaultProperties` returns `true` and the target gains the
property, `deleteProperty` then returns `true` and the property is gone, and
for the default key `href` both return `false`; nothing is thrown. -/
theorem define_delete_by_foreign_caller :
    Sample.foreignCaller.origin ≠ Sample.lib.serializeURLOrigin Sample.pageURL ∧
      (definePropertyBy Sample.foreignCaller Sample.realm Sample.expando
        (freshData (.number 1))).1 = .value true ∧
      OrdinaryGetOwnProperty
        (definePropertyBy Sample.foreignCaller Sample.realm Sample.expando
          (freshData (.number 1))).2.heap 0 Sample.expando =
        some (.data (.number 1) true true true) ∧
      (deletePropertyBy Sample.foreignCaller
        (definePropertyBy Sample.foreignCaller Sample.realm Sample.expando
          (freshData (.number 1))).2 Sample.expando).1 = .value true ∧
      OrdinaryGetOwnProperty
        (deletePropertyBy Sample.foreignCaller
          (definePropertyBy Sample.foreignCaller Sample.realm Sample.expando
            (freshData (.number 1))).2 Sample.expando).2.heap 0 Sample.expando = none ∧
      (definePropertyBy Sample.foreignCaller Sample.realm Sample.href
        (freshData (.number 1))).1 = .value false ∧
      (deletePropertyBy Sample.foreignCaller Sample.realm Sample.href).1 = .value false := by
  decide

/-- C17, amended: the traps do not consult the caller.  For every caller,
`defineProperty` and `deleteProperty` return `false`, with the realm as it
was, for a key of `_defaultProperties`, and are `Reflect.defineProperty` and
`Reflect.deleteProperty` on the target for any other key; neither throws a
`DOMException`, and any two callers get the same result. -/
theorem define_delete_ignore_caller (caller : Caller) (realm : Realm) (P : PropertyKey)
    (desc : PropertyDescriptor) :
    definePropertyBy caller realm P desc =
        (if P ∈ realm._defaultProperties then (.value false, realm)
          else Reflect.defineProperty realm realm.locationWrapper P desc) ∧
      deletePropertyBy caller realm P =
        (if P ∈ realm._defaultProperties then (.value false, realm)
          else Reflect.deleteProperty realm realm.locationWrapper P) ∧
      (∀ message name,
        (definePropertyBy caller realm P desc).1 ≠ .throw (.domException message name)) ∧
      (∀ message name,
        (deletePropertyBy caller realm P).1 ≠ .throw (.domException message name)) ∧
      (∀ other : Caller,
        definePropertyBy other realm P desc = definePropertyBy caller realm P desc ∧
        deletePropertyBy other realm P = deletePropertyBy caller realm P) := by
  refine ⟨?_, ?_, fun message name => ?_, fun message name => ?_, fun other => ⟨rfl, rfl⟩⟩
  · by_cases h : P ∈ realm._defaultProperties <;>
      simp [definePropertyBy, proxyHandler.defineProperty, h]
  · by_cases h : P ∈ realm._defaultProperties <;>
      simp [deletePropertyBy, proxyHandler.deleteProperty, h]
  · unfold definePropertyBy proxyHandler.defineProperty Reflect.defineProperty
    split
    · simp
    · split <;> simp
  · unfold deletePropertyBy proxyHandler.deleteProperty Reflect.deleteProperty
    split <;> simp

theorem Reflect_get_succ (returns : Call → Value) (depth : Nat) :
    ∀ (realm : Realm) (O : Ref) (P : PropertyKey) (receiver : Value),
      (∀ m, (Reflect.get returns depth realm O P receiver).1 ≠ .throw (.rangeError m)) →
      Reflect.get returns (depth + 1) realm O P receiver =
        Reflect.get returns depth realm O P receiver := by
  induction depth with
  | zero =>
    intro realm O P receiver h
    exact absurd rfl (h "Maximum call stack size exceeded")
  | succ d ih =>
    intro realm O P receiver h
    cases O with
    | ordinary a =>
      have hl : Reflect.get returns (d + 1 + 1) realm (.ordinary a) P receiver =
          OrdinaryGet returns (Reflect.get returns (d + 1)) realm a P receiver := rfl
      have hr : Reflect.get returns (d + 1) realm (.ordinary a) P receiver =
          OrdinaryGet returns (Reflect.get returns d) realm a P receiver := rfl
      rw [hr] at h
      rw [hl, hr]
      unfold OrdinaryGet at h ⊢
      cases hown : OrdinaryGetOwnProperty realm.heap a P with
      | none =>
        cases hp : (realm.heap a).prototype with
        | none => rfl
        | some parent =>
          simp only [hown, hp] at h
          exact ih realm parent P receiver h
      | some p => cases p <;> rfl
    | locationProxy =>
      have hl : Reflect.get returns (d + 1 + 1) realm .locationProxy P receiver =
          proxyHandler.get returns (Reflect.get returns (d + 1)) realm realm.locationWrapper P
            receiver := rfl
      have hr : Reflect.get returns (d + 1) realm .locationProxy P receiver =
          proxyHandler.get returns (Reflect.get returns d) realm realm.locationWrapper P
            receiver := rfl
      rw [hr] at h
      rw [hl, hr]
      unfold proxyHandler.get at h ⊢
      cases hown : proxyHandler.getOwnPropertyDescriptor realm realm.locationWrapper P with
      | none =>
        cases hp : proxyHandler.getPrototypeOf realm realm.locationWrapper with
        | none => rfl
        | some parent =>
          simp only [hown, hp] at h
          exact ih realm (.ordinary realm.locationWrapper) P receiver h
      | some desc => rfl

theorem get_trap_own (returns : Call → Value) (reflectGet parentGet : GetMethod)
    (realm : Realm) (target : Nat) (P : PropertyKey) (receiver : Value) (p : Property)
    (h : OrdinaryGetOwnProperty realm.heap target P = some p) :
    proxyHandler.get returns reflectGet realm target P receiver =
      OrdinaryGet returns parentGet realm target P receiver := by
  cases p with
  | data v w e c =>
    simp [proxyHandler.get, proxyHandler.getOwnPropertyDescriptor,
      Reflect.getOwnPropertyDescriptor, h, Property.toDescriptor, OrdinaryGet]
  | accessor g s e c =>
    cases g with
    | none =>
      cases s <;>
        simp [proxyHandler.get, proxyHandler.getOwnPropertyDescriptor,
          Reflect.getOwnPropertyDescriptor, h, Property.toDescriptor, OrdinaryGet]
    | some f =>
      simp [proxyHandler.get, proxyHandler.getOwnPropertyDescriptor,
        Reflect.getOwnPropertyDescriptor, h, Property.toDescriptor, OrdinaryGet]

theorem get_trap_not_own (returns : Call → Value) (reflectGet : GetMethod)
    (realm : Realm) (target : Nat) (P : PropertyKey) (receiver : Value)
    (h : OrdinaryGetOwnProperty realm.heap target P = none) :
    proxyHandler.get returns reflectGet realm target P receiver =
      match (realm.heap target).prototype with
      | none => (.value .undefined, realm)
      | some _ => reflectGet realm (.ordinary target) P receiver := by
  simp only [proxyHandler.get, proxyHandler.getOwnPropertyDescriptor,
    Reflect.getOwnPropertyDescriptor, h, Option.map_none', proxyHandler.getPrototypeOf,
    Reflect.getPrototypeOf]

theorem OrdinaryGet_not_own (returns : Call → Value) (parentGet : GetMethod)
    (realm : Realm) (O : Nat) (P : PropertyKey) (receiver : Value)
    (h : OrdinaryGetOwnProperty realm.heap O P = none) :
    OrdinaryGet returns parentGet realm O P receiver =
      match (realm.heap O).prototype with
      | none => (.value .undefined, realm)
      | some parent => parentGet realm parent P receiver := by
  simp only [OrdinaryGet, h]

/-- C20: the trap `get` returns what `OrdinaryGet(target, P, receiver)`
returns, and has its effect, whenever the trap does not run out of call
stack; it reaches the prototype chain through `Reflect.get(target, P,
receiver)`, one nested call more than `OrdinaryGet` makes, so with one more
level of stack than `OrdinaryGet` has it agrees with it without exception.
Case by case the trap returns: the stored value for an own data property,
whatever the receiver; the result of invoking the getter with the receiver as
`this` for an own accessor with a getter; `undefined` for an own accessor
without a getter; the answer of the prototype's `[[Get]]` when `P` is not an
own property and the prototype is not null; `undefined` when `P` is not an own
property and the prototype is null. -/
theorem get_trap_is_OrdinaryGet (returns : Call → Value) (depth : Nat) (realm : Realm)
    (target : Nat) (P : PropertyKey) (receiver : Value) :
    ((∀ m, (proxyHandler.get returns (Reflect.get returns depth) realm target P receiver).1 ≠
        .throw (.rangeError m)) →
      proxyHandler.get returns (Reflect.get returns depth) realm target P receiver =
        OrdinaryGet returns (Reflect.get returns depth) realm target P receiver) ∧
    proxyHandler.get returns (Reflect.get returns (depth + 1)) realm target P receiver =
        OrdinaryGet returns (Reflect.get returns depth) realm target P receiver ∧
    (∀ v w e c, OrdinaryGetOwnProperty realm.heap target P = some (.data v w e c) →
      proxyHandler.get returns (Reflect.get returns depth) realm target P receiver =
        (.value v, realm)) ∧
    (∀ f s e c, OrdinaryGetOwnProperty realm.heap target P = some (.accessor (some f) s e c) →
      proxyHandler.get returns (Reflect.get returns depth) realm target P receiver =
        (.value (returns ⟨f, receiver, []⟩),
          { realm with calls := realm.calls ++ [⟨f, receiver, []⟩] })) ∧
    (∀ s e c, OrdinaryGetOwnProperty realm.heap target P = some (.accessor none s e c) →
      proxyHandler.get returns (Reflect.get returns depth) realm target P receiver =
        (.value .undefined, realm)) ∧
    (∀ parent, OrdinaryGetOwnProperty realm.heap target P = none →
      (realm.heap target).prototype = some parent →
      proxyHandler.get returns (Reflect.get returns (depth + 1)) realm target P receiver =
        Reflect.get returns depth realm parent P receiver) ∧
    (OrdinaryGetOwnProperty realm.heap target P = none →
      (realm.heap target).prototype = none →
      proxyHandler.get returns (Reflect.get returns depth) realm target P receiver =
        (.value .undefined, realm)) := by
  have hstep : ∀ d, Reflect.get returns (d + 1) realm (.ordinary target) P receiver =
      OrdinaryGet returns (Reflect.get returns d) realm target P receiver := fun _ => rfl
  refine ⟨fun hno => ?_, ?_, fun v w e c h => ?_, fun f s e c h => ?_, fun s e c h => ?_,
    fun parent h hp => ?_, fun h hp => ?_⟩
  · cases h : OrdinaryGetOwnProperty realm.heap target P with
    | some p => exact get_trap_own returns _ _ realm target P receiver p h
    | none =>
      rw [get_trap_not_own returns _ realm target P receiver h] at hno ⊢
      rw [OrdinaryGet_not_own returns _ realm target P receiver h]
      cases hp : (realm.heap target).prototype with
      | none => rfl
      | some parent =>
        simp only [hp] at hno ⊢
        cases depth with
        | zero => exact absurd rfl (hno "Maximum call stack size exceeded")
        | succ d =>
          rw [hstep d, OrdinaryGet_not_own returns _ realm target P receiver h] at hno ⊢
          simp only [hp] at hno ⊢
          exact (Reflect_get_succ returns d realm parent P receiver hno).symm
  · cases h : OrdinaryGetOwnProperty realm.heap target P with
    | some p => exact get_trap_own returns _ _ realm target P receiver p h
    | none =>
      rw [get_trap_not_own returns _ realm target P receiver h]
      cases hp : (realm.heap target).prototype with
      | none => simp [OrdinaryGet, h, hp]
      | some parent => exact hstep depth
  · rw [get_trap_own returns _ (Reflect.get returns depth) realm target P receiver _ h]
    simp [OrdinaryGet, h]
  · rw [get_trap_own returns _ (Reflect.get returns depth) realm target P receiver _ h]
    simp [OrdinaryGet, h, Reflect.apply]
  · rw [get_trap_own returns _ (Reflect.get returns depth) realm target P receiver _ h]
    simp [OrdinaryGet, h]
  · rw [get_trap_not_own returns _ realm target P receiver h]
    simp only [hp]
    rw [hstep depth, OrdinaryGet_not_own returns _ realm target P receiver h]
    simp only [hp]
  · rw [get_trap_not_own returns _ realm target P receiver h]
    simp only [hp]

/-- C20 at concrete inputs: on the sample wrapper, with the proxy as receiver,
`get` of `href` invokes the getter with the proxy as `this`, `get` of
`assign` returns the stored function, and `get` of a key found nowhere on the
prototype chain returns `undefined`. -/
theorem get_trap_sample :
    proxyHandler.get Sample.returns (Reflect.get Sample.returns 8) Sample.realm 0 Sample.href
        (.object .locationProxy) =
      (.value (Sample.returns ⟨Sample.hrefGetter, .object .locationProxy, []⟩),
        { Sample.realm with calls :=
            Sample.realm.calls ++ [⟨Sample.hrefGetter, .object .locationProxy, []⟩] }) ∧
    (proxyHandler.get Sample.returns (Reflect.get Sample.returns 8) Sample.realm 0
        Sample.assignKey (.object .locationProxy)).1 =
      .value (.object Sample.assignFunction) ∧
    (proxyHandler.get Sample.returns (Reflect.get Sample.returns 8) Sample.realm 0
        Sample.expando (.object .locationProxy)).1 = .value .undefined :=
  ⟨(get_trap_is_OrdinaryGet Sample.returns 8 Sample.realm 0 Sample.href
      (.object .locationProxy)).2.2.2.1 Sample.hrefGetter (some Sample.hrefSetter) true false
      (by decide),
    by decide, by decide⟩

end Location
